import Mathlib

/-!
# planningms: reconciliation of spent-time reports

A shallow embedding of the Go packages `entities`, `cache` and `plannings`
of `qarea/planningms` and of `errWithLog` of package `rpcsvc`, and theorems
about `Service.AddSpentTime`, `Service.SetActive`, `Service.ClosePlanning`,
`Service.SpentTime`, `Service.OpenedPlannings`, the session store and its
backup.

Conventions of the embedding

* Go `int64` and `int` (64 bit) values are integers; every arithmetic
  operation of the source goes through `wrap64`, the two's complement wrap
  of Go, so `sub64 a b` is the Go expression `a - b` and `add64 a b` is
  `a + b`.  They agree with the exact operations whenever the exact result
  fits in 64 bits (`sub64_exact`, `add64_exact`).
* A Go `error` is `Option Err` (`none` is `nil`); a `*SpentTime` is
  `Option SpentTime`.
* The in-memory map of `cache.SpentTimeInMemory` is a finite map from user
  id to session; the mutex is not modelled (one call runs at a time).
* The `PlanningStorage` collaborator is an arbitrary implementation of the
  interface over a state `σ`; `timeNowFunc()` is the parameter `now`.
* `int64(d.Seconds())` of a configured duration is a field of `Service`.
* The file system and `encoding/json` are arbitrary implementations of the
  functions the cache calls; the order in which Go iterates the map is an
  argument of `toSlice` and `backup`, any enumeration of the entries.
-/

namespace Planningms

/-! ## Machine integers -/

/-- Two's complement wrap of an integer into the range of Go `int64`. -/
def wrap64 (x : Int) : Int :=
  (x + 9223372036854775808) % 18446744073709551616 - 9223372036854775808

/-- Go `a - b` on `int64`. -/
def sub64 (a b : Int) : Int := wrap64 (a - b)

/-- Go `a + b` on `int64` (and on 64 bit `int`). -/
def add64 (a b : Int) : Int := wrap64 (a + b)

/-- The values of Go `int64`. -/
def IsInt64 (x : Int) : Prop :=
  -9223372036854775808 ≤ x ∧ x ≤ 9223372036854775807

instance (x : Int) : Decidable (IsInt64 x) := by
  unfold IsInt64; infer_instance

/-! ## Package entities -/

/-- Type `ctxtg.UserID` (an `int64`). -/
abbrev UserID := Int

/-- Type `entities.PlanningID` (an `int64`). -/
abbrev PlanningID := Int

/-- Type `entities.SpentTimeStatus` with its two constants. -/
inductive SpentTimeStatus where
  | Online
  | Offline
  deriving DecidableEq, Repr

/-- Type `entities.PlanningStatus` with its two constants. -/
inductive PlanningStatus where
  | Open
  | Closed
  deriving DecidableEq, Repr

/-- Struct `entities.SpentTime`: the active session of a user. -/
structure SpentTime where
  UserID : UserID
  PlanningID : PlanningID
  PlanningCreatedAt : Int
  Started : Int
  Last : Int
  SpentOnline : Int
  deriving DecidableEq, Repr

/-- Struct `entities.SpentTimeReport`. -/
structure SpentTimeReport where
  UserID : UserID
  PlanningID : PlanningID
  Spent : Int
  Time : Int
  deriving DecidableEq, Repr

/-- Struct `entities.SpentTimeHistory`. -/
structure SpentTimeHistory where
  PlanningID : PlanningID
  Spent : Int
  StartedAt : Int
  EndedAt : Int
  Status : SpentTimeStatus
  deriving DecidableEq, Repr

/-- Struct `entities.PlanningReport`. -/
structure PlanningReport where
  PlanningID : PlanningID
  Progress : Int
  Time : Int
  deriving DecidableEq, Repr

/-- Struct `entities.NewActivePlanning`. -/
structure NewActivePlanning where
  UserID : UserID
  PlanningID : PlanningID
  Time : Int
  deriving DecidableEq, Repr

/-- Struct `entities.Planning`. -/
structure Planning where
  ID : PlanningID
  UserID : UserID
  Status : PlanningStatus
  ProjectID : Int
  TrackerID : Int
  IssueID : Int
  IssueTitle : String
  IssueURL : String
  IssueEstimation : Int
  IssueDueDate : Int
  IssueDone : Int
  ActivityID : Int
  SpentOnline : Int
  SpentOffline : Int
  Reported : Int
  CreatedAt : Int
  deriving DecidableEq, Repr

/-- Struct `entities.ExtendedPlanning`. -/
structure ExtendedPlanning where
  toPlanning : Planning
  Estimation : Int
  LastActivity : Int
  Outdated : Bool
  deriving DecidableEq, Repr

/-- Go error values met by the service.  The first nine are the variables of
`entities/errors.go`; `errOfflineSpentTime` is the sentinel of package
`plannings`; `invalidSpentTime now st` is the fresh value of
`errors.Errorf("Invalid spentTime now: %d , instance: %+v", now, st)`;
`deadlineExceeded` and `canceled` are the two errors of package `context`;
`collaborator n` is an error value owned by a collaborator; `wrap` and
`wrapf` are the results of `errors.Wrap(cause, msg)` and of
`errors.Wrapf(cause, format, arg)`. -/
inductive Err where
  | ErrTimeout
  | ErrMaintenance
  | ErrInvalidPlanningID
  | ErrNoActivePlanning
  | ErrInvalidUserID
  | ErrPlanningClosed
  | ErrPlanningOutdated
  | ErrOutdatedReport
  | ErrNegativeSpentTime
  | errOfflineSpentTime
  | invalidSpentTime (now : Int) (st : SpentTime)
  | deadlineExceeded
  | canceled
  | collaborator (n : Nat)
  | wrap (cause : Err) (msg : String)
  | wrapf (cause : Err) (format : String) (arg : Err)
  deriving DecidableEq, Repr

/-- Function `errors.Cause` of `github.com/pkg/errors`: the innermost error
under the wrappers. -/
def Err.Cause : Err → Err
  | .wrap c _ => c.Cause
  | .wrapf c _ _ => c.Cause
  | e => e

/-- Function `errors.Cause` on a Go `error`, `nil` included. -/
def Cause (e : Option Err) : Option Err := e.map Err.Cause

/-! ## Package cache -/

/-- The map `spentTime` of `cache.SpentTimeInMemory`. -/
abbrev Store := Finmap (fun _ : UserID => SpentTime)

/-- Type `entities.ModifySpentTimeFunc`.  The argument `none` is the `nil`
pointer; `κ` is the state captured (and possibly updated) by the Go closure. -/
abbrev ModifySpentTimeFunc (κ : Type) :=
  Option SpentTime → κ → (Option SpentTime × Option Err) × κ

/-- Method `SpentTimeInMemory.Modify`: pass the session of `userID` (or `nil`)
to `f`; store what `f` returns, or delete the entry when it returns `nil`;
return the error of `f`. -/
def SpentTimeInMemory.Modify {κ : Type} (m : Store) (userID : UserID)
    (f : ModifySpentTimeFunc κ) (k : κ) : (Option Err × Store) × κ :=
  let r := match m.lookup userID with
    | some st => f (some st) k
    | none => f none k
  match r.1.1 with
  | none => ((r.1.2, m.erase userID), r.2)
  | some spentTime => ((r.1.2, m.insert userID spentTime), r.2)

/-- Method `SpentTimeInMemory.NewSpentTime` (through `save`). -/
def SpentTimeInMemory.NewSpentTime (m : Store) (st : SpentTime) : Option Err × Store :=
  (none, m.insert st.UserID st)

/-! ## Package plannings -/

/-- Constant `fiveMinutesInSeconds`. -/
def fiveMinutesInSeconds : Int := 60 * 5

/-- Interface `plannings.PlanningStorage`, implemented over a state `σ`.
A method returning `(v, error)` returns the pair of `v` and the error. -/
structure PlanningStorage (σ : Type) where
  AddSpentTime : SpentTimeHistory → σ → Option Err × σ
  ClosePlanning : UserID → PlanningReport → σ → Option Err × σ
  PlanningCreatedAt : PlanningID → σ → (Int × Option Err) × σ
  LastActivity : UserID → σ → (Int × Option Err) × σ
  Planning : PlanningID → σ → (Option Planning × Option Err) × σ
  OpenedPlannings : UserID → σ → (List ExtendedPlanning × Option Err) × σ
  SpentTimeByUserIDTimeRange : UserID → Int → Int → σ → (Int × Option Err) × σ

/-- Struct `plannings.Service`.  The session store is the `Store` threaded
through the methods; the two limits are held in whole seconds, as
`int64(d.Seconds())` yields them. -/
structure Service (σ : Type) where
  planningStorage : PlanningStorage σ
  maxPlanningAge : Int
  maxFromLastUpdate : Int

/-- Type `spentTimeFunc` of package `plannings`. -/
abbrev spentTimeFunc (κ : Type) :=
  SpentTime → κ → (Option SpentTime × Option Err) × κ

/-- Function `checkNotEmpty`. -/
def checkNotEmpty {κ : Type} (f : spentTimeFunc κ) : ModifySpentTimeFunc κ :=
  fun st k =>
    match st with
    | none => ((none, some Err.ErrNoActivePlanning), k)
    | some st => f st k

/-- Function `ifNotEmpty`. -/
def ifNotEmpty {κ : Type} (f : spentTimeFunc κ) : ModifySpentTimeFunc κ :=
  fun st k =>
    match st with
    | none => ((none, none), k)
    | some st => f st k

/-- Function `ifPlanningID`. -/
def ifPlanningID {κ : Type} (planningID : PlanningID) (f : spentTimeFunc κ) :
    spentTimeFunc κ :=
  fun st k => if st.PlanningID ≠ planningID then ((some st, none), k) else f st k

/-- Method `Service.isOutdated`. -/
def Service.isOutdated {σ : Type} (s : Service σ) (time created last : Int) : Bool :=
  decide (sub64 time created > s.maxPlanningAge) ||
    (decide (last > 0) && decide (sub64 time last > s.maxFromLastUpdate))

/-- Method `Service.checkReport`, with `timeNowFunc()` given as `now`. -/
def Service.checkReport {σ : Type} (s : Service σ) (now : Int) (st : SpentTime)
    (report : SpentTimeReport) : SpentTimeReport × Option Err :=
  if now < st.Last ∨ now < st.Started then
    (report, some (Err.invalidSpentTime now st))
  else if st.PlanningID ≠ report.PlanningID then
    (report, some Err.ErrInvalidPlanningID)
  else if report.Time < st.Last then
    (report, some Err.ErrOutdatedReport)
  else if report.Spent < 0 then
    (report, some Err.ErrNegativeSpentTime)
  else if s.isOutdated report.Time st.PlanningCreatedAt st.Last then
    (report, some Err.ErrPlanningOutdated)
  else
    let report :=
      if sub64 report.Time st.Last < report.Spent then
        { report with Spent := sub64 report.Time st.Last }
      else report
    if sub64 now st.Last > fiveMinutesInSeconds then
      (report, some Err.errOfflineSpentTime)
    else
      (report, none)

/-- Function `reportToHistory`. -/
def reportToHistory (r : SpentTimeReport) (status : SpentTimeStatus) : SpentTimeHistory :=
  { PlanningID := r.PlanningID
    Spent := r.Spent
    StartedAt := sub64 r.Time r.Spent
    EndedAt := r.Time
    Status := status }

/-- Function `spentTimeToHistory`. -/
def spentTimeToHistory (t : SpentTime) (s : SpentTimeStatus) : SpentTimeHistory :=
  { PlanningID := t.PlanningID
    Spent := t.SpentOnline
    StartedAt := t.Started
    EndedAt := t.Last
    Status := s }

/-- The closure `incrementTimeFunc` of `Service.AddSpentTime`, before
`checkNotEmpty` is applied to it. -/
def incrementTime (newReport : SpentTimeReport) : spentTimeFunc Unit :=
  fun st u =>
    ((some { st with Last := newReport.Time
                     SpentOnline := add64 st.SpentOnline newReport.Spent }, none), u)

/-- Method `Service.AddSpentTime`.  The result is the returned error, the
session store and the collaborator state after the call. -/
def Service.AddSpentTime {σ : Type} (s : Service σ) (now : Int)
    (report : SpentTimeReport) (m : Store) (db : σ) : Option Err × Store × σ :=
  let r1 := SpentTimeInMemory.Modify m report.UserID
    (checkNotEmpty (fun st (_ : SpentTime) => ((some st, none), st)))
    ({ UserID := 0, PlanningID := 0, PlanningCreatedAt := 0,
       Started := 0, Last := 0, SpentOnline := 0 } : SpentTime)
  match r1.1.1 with
  | some err => (some err, r1.1.2, db)
  | none =>
    let spentTime := r1.2
    let c := s.checkReport now spentTime report
    let newReport := c.1
    if c.2 = some Err.errOfflineSpentTime then
      let w := s.planningStorage.AddSpentTime (reportToHistory newReport SpentTimeStatus.Offline) db
      match w.1 with
      | some saveErr =>
        (some (Err.wrapf Err.errOfflineSpentTime "fail to save spenttime history: %+v" saveErr),
          r1.1.2, w.2)
      | none =>
        let r2 := SpentTimeInMemory.Modify r1.1.2 report.UserID
          (checkNotEmpty (incrementTime newReport)) ()
        (r2.1.1, r2.1.2, w.2)
    else
      match c.2 with
      | some err => (some (Err.wrap err "invalid report"), r1.1.2, db)
      | none =>
        let r2 := SpentTimeInMemory.Modify r1.1.2 report.UserID
          (checkNotEmpty (incrementTime newReport)) ()
        (r2.1.1, r2.1.2, db)

/-- State of a recording collaborator in the manner of `testPlanningStorage`
of `plannings_test.go`: the history intervals received so far, the canned
answers `lastActivity` and `spent`, and the error `err` that every call
answers with.  The map of plannings and the recorded query arguments of the
test double are left out. -/
structure testPlanningStorage where
  histories : List SpentTimeHistory
  lastActivity : Int
  spent : Int
  err : Option Err
  deriving DecidableEq, Repr

/-- The methods of `testPlanningStorage`: `AddSpentTime` appends the interval
to `histories` and returns `err`, also when `err` is not `nil`; the other
methods return their canned answer and `err`. -/
def testStorage : PlanningStorage testPlanningStorage where
  AddSpentTime := fun h t => (t.err, { t with histories := t.histories ++ [h] })
  ClosePlanning := fun _ _ t => (t.err, t)
  PlanningCreatedAt := fun _ t => ((0, t.err), t)
  LastActivity := fun _ t => ((t.lastActivity, t.err), t)
  Planning := fun _ t => ((none, t.err), t)
  OpenedPlannings := fun _ t => (([], t.err), t)
  SpentTimeByUserIDTimeRange := fun _ _ _ t => ((t.spent, t.err), t)

/-! ## Concrete inputs, after `plannings_test.go` -/

/-- The service of the tests: limits of 35 and 10 seconds. -/
def testService : Service testPlanningStorage :=
  { planningStorage := testStorage, maxPlanningAge := 35, maxFromLastUpdate := 10 }

/-- A collaborator that accepts every call. -/
def okStorage : testPlanningStorage :=
  { histories := [], lastActivity := 0, spent := 0, err := none }

/-- A collaborator that fails every call with an error of its own. -/
def failingStorage : testPlanningStorage :=
  { histories := [], lastActivity := 0, spent := 0, err := some (Err.collaborator 1) }

/-- The session of `TestAddSpentTimePlanningOnlineTooMuchTime`, for user 7
and planning 3. -/
def testSession : SpentTime :=
  { UserID := 7, PlanningID := 3, PlanningCreatedAt := 0, Started := 0, Last := 15,
    SpentOnline := 15 }

/-- A store holding `testSession` only. -/
def testStore : Store := (∅ : Store).insert 7 testSession

/-- The report of `TestAddSpentTimePlanningOnlineTooMuchTime`: ten seconds
claimed five seconds after the last checkpoint. -/
def testReport : SpentTimeReport :=
  { UserID := 7, PlanningID := 3, Spent := 10, Time := 20 }

/-! ## Package plannings: activation -/

/-- Method `Service.spentTimeToHistory`: write the interval of the session to
the collaborator and wrap its error. -/
def Service.spentTimeToHistory {σ : Type} (s : Service σ) (spentTime : SpentTime)
    (status : SpentTimeStatus) (db : σ) : Option Err × σ :=
  let history := Planningms.spentTimeToHistory spentTime status
  let r := s.planningStorage.AddSpentTime history db
  match r.1 with
  | some err => (some (Err.wrap err "failed to save spent time history to storage"), r.2)
  | none => (none, r.2)

/-- Method `Service.toHistory`: the callback that flushes a session as an
Online interval; it keeps the session when the write fails and drops it when
the write succeeds.  The captured state is the collaborator. -/
def Service.toHistory {σ : Type} (s : Service σ) : spentTimeFunc σ :=
  fun st db =>
    let r := s.spentTimeToHistory st SpentTimeStatus.Online db
    match r.1 with
    | some err => ((some st, some err), r.2)
    | none => ((none, none), r.2)

/-- Method `Service.SetActive`.  The result is the returned error, the session
store and the collaborator state after the call. -/
def Service.SetActive {σ : Type} (s : Service σ) (a : NewActivePlanning)
    (m : Store) (db : σ) : Option Err × Store × σ :=
  let r := SpentTimeInMemory.Modify m a.UserID (ifNotEmpty s.toHistory) db
  match r.1.1 with
  | some err => (some (Err.wrap err "failed spentTime storage modification"), r.1.2, r.2)
  | none =>
    if a.PlanningID = 0 then (none, r.1.2, r.2)
    else
      let la := s.planningStorage.LastActivity a.UserID r.2
      match la.1.2 with
      | some err => (some (Err.wrap err "failed to load planning lastActivity"), r.1.2, la.2)
      | none =>
        if la.1.1 > a.Time then (some Err.ErrOutdatedReport, r.1.2, la.2)
        else
          let ca := s.planningStorage.PlanningCreatedAt a.PlanningID la.2
          match ca.1.2 with
          | some err =>
            (some (Err.wrap err "failed to load planning StartedAt"), r.1.2, ca.2)
          | none =>
            let n := SpentTimeInMemory.NewSpentTime r.1.2
              { UserID := a.UserID
                PlanningID := a.PlanningID
                PlanningCreatedAt := ca.1.1
                Started := a.Time
                Last := a.Time
                SpentOnline := 0 }
            match n.1 with
            | some err => (some (Err.wrap err "failed to create new spent time"), n.2, ca.2)
            | none => (none, n.2, ca.2)

/-! ## Package plannings: the session store as an interface -/

/-- Interface `plannings.SpentTimeStorage`, implemented over a state `τ`.
`Modify` takes the callback together with the state `κ` that the Go closure
captures. -/
structure SpentTimeStorage (τ : Type) where
  NewSpentTime : SpentTime → τ → Option Err × τ
  Modify : (κ : Type) → UserID → ModifySpentTimeFunc κ → κ → τ → (Option Err × τ) × κ

/-- The implementation `cache.SpentTimeInMemory` of `SpentTimeStorage`. -/
def inMemory : SpentTimeStorage Store where
  NewSpentTime := fun st m => SpentTimeInMemory.NewSpentTime m st
  Modify := fun _ userID f k m => SpentTimeInMemory.Modify m userID f k

/-- An implementation of `SpentTimeStorage` that forwards every call to
`inner` and counts the calls of `Modify`. -/
def countModify {τ : Type} (inner : SpentTimeStorage τ) : SpentTimeStorage (τ × Nat) where
  NewSpentTime := fun st t => ((inner.NewSpentTime st t.1).1, ((inner.NewSpentTime st t.1).2, t.2))
  Modify := fun κ userID f k t =>
    (((inner.Modify κ userID f k t.1).1.1, ((inner.Modify κ userID f k t.1).1.2, t.2 + 1)),
      (inner.Modify κ userID f k t.1).2)

/-- Method `Service.AddSpentTime`, as the source has it, against the interface
`SpentTimeStorage` held in the field `spentTimeStorage`; on `inMemory` it is
`Service.AddSpentTime`. -/
def Service.AddSpentTimeOn {σ τ : Type} (s : Service σ) (spentTimeStorage : SpentTimeStorage τ)
    (now : Int) (report : SpentTimeReport) (t : τ) (db : σ) : Option Err × τ × σ :=
  let r1 := spentTimeStorage.Modify SpentTime report.UserID
    (checkNotEmpty (fun st (_ : SpentTime) => ((some st, none), st)))
    ({ UserID := 0, PlanningID := 0, PlanningCreatedAt := 0,
       Started := 0, Last := 0, SpentOnline := 0 } : SpentTime) t
  match r1.1.1 with
  | some err => (some err, r1.1.2, db)
  | none =>
    let spentTime := r1.2
    let c := s.checkReport now spentTime report
    let newReport := c.1
    if c.2 = some Err.errOfflineSpentTime then
      let w := s.planningStorage.AddSpentTime (reportToHistory newReport SpentTimeStatus.Offline) db
      match w.1 with
      | some saveErr =>
        (some (Err.wrapf Err.errOfflineSpentTime "fail to save spenttime history: %+v" saveErr),
          r1.1.2, w.2)
      | none =>
        let r2 := spentTimeStorage.Modify Unit report.UserID
          (checkNotEmpty (incrementTime newReport)) () r1.1.2
        (r2.1.1, r2.1.2, w.2)
    else
      match c.2 with
      | some err => (some (Err.wrap err "invalid report"), r1.1.2, db)
      | none =>
        let r2 := spentTimeStorage.Modify Unit report.UserID
          (checkNotEmpty (incrementTime newReport)) () r1.1.2
        (r2.1.1, r2.1.2, db)

/-! ## Package cache: backup and restore -/

/-- The functions of `io/ioutil` and `os` that the cache calls, over a state
`φ` of the file system; `β` is the type of the contents of a file.
`ReadFile` returns the contents or an error. -/
structure FileSystem (φ β : Type) where
  ReadFile : String → φ → Except Err β × φ
  WriteFile : String → β → φ → Option Err × φ
  Rename : String → String → φ → Option Err × φ

/-- The functions `json.Marshal` and `json.Unmarshal` of `encoding/json` at the
type `[]entities.SpentTime`. -/
structure JSON (β : Type) where
  Marshal : List SpentTime → Except Err β
  Unmarshal : β → Except Err (List SpentTime)

/-- Constant `backupFileName`. -/
def backupFileName : String := "backup.json"

/-- Constant `tmpExtension`. -/
def tmpExtension : String := ".tmp"

/-- Function `filepath.Join` on a folder and a file name (the cleaning of the
path is not modelled). -/
def filepathJoin (dir name : String) : String := dir ++ "/" ++ name

/-- Method `SpentTimeInMemory.backupFilePath`. -/
def SpentTimeInMemory.backupFilePath (backupFolder : String) : String :=
  filepathJoin backupFolder backupFileName

/-- Method `SpentTimeInMemory.tempBackupFilePath`. -/
def SpentTimeInMemory.tempBackupFilePath (backupFolder : String) : String :=
  filepathJoin backupFolder (backupFileName ++ tmpExtension)

/-- Method `SpentTimeInMemory.fromSlice`: store every session of the slice
under its `UserID`, in the order of the slice. -/
def SpentTimeInMemory.fromSlice (m : Store) (sts : List SpentTime) : Store :=
  sts.foldl (fun acc st => acc.insert st.UserID st) m

/-- Method `SpentTimeInMemory.toSlice`.  The argument is the sequence of
entries that `range s.spentTime` yields, in the order it yields them; each
session is appended with its `UserID` set to its key. -/
def SpentTimeInMemory.toSlice (entries : List (Sigma fun _ : UserID => SpentTime)) :
    List SpentTime :=
  entries.foldl (fun sts e => sts ++ [{ e.2 with UserID := e.1 }]) []

/-- Method `SpentTimeInMemory.restore`: read the backup file, or the temp file
when that fails, decode it and load the sessions into the map. -/
def SpentTimeInMemory.restore {φ β : Type} (fs : FileSystem φ β) (json : JSON β)
    (backupFolder : String) (m : Store) (d : φ) : Option Err × Store × φ :=
  let r1 := fs.ReadFile (SpentTimeInMemory.backupFilePath backupFolder) d
  let load (b : β) (d' : φ) : Option Err × Store × φ :=
    match json.Unmarshal b with
    | .error err => (some err, m, d')
    | .ok sts => (none, SpentTimeInMemory.fromSlice m sts, d')
  match r1.1 with
  | .ok b => load b r1.2
  | .error _ =>
    let r2 := fs.ReadFile (SpentTimeInMemory.tempBackupFilePath backupFolder) r1.2
    match r2.1 with
    | .error err => (some err, m, r2.2)
    | .ok b => load b r2.2

/-- Method `SpentTimeInMemory.backup`: encode the slice of the map, write it
to the temp file and rename the temp file to the backup file.  `entries` is
the iteration order of the map, as for `toSlice`. -/
def SpentTimeInMemory.backup {φ β : Type} (fs : FileSystem φ β) (json : JSON β)
    (backupFolder : String) (entries : List (Sigma fun _ : UserID => SpentTime)) (d : φ) :
    Option Err × φ :=
  match json.Marshal (SpentTimeInMemory.toSlice entries) with
  | .error err => (some (Err.wrap err "failed to marshal data"), d)
  | .ok b =>
    let w := fs.WriteFile (SpentTimeInMemory.tempBackupFilePath backupFolder) b d
    match w.1 with
    | some err => (some (Err.wrap err "failed to write to temp file"), w.2)
    | none =>
      let rn := fs.Rename (SpentTimeInMemory.tempBackupFilePath backupFolder)
        (SpentTimeInMemory.backupFilePath backupFolder) w.2
      match rn.1 with
      | some err => (some (Err.wrap err "failed to rename temp file"), rn.2)
      | none => (none, rn.2)

/-- State of a file system held in memory: the files, by path, and the paths
read so far. -/
structure memFiles (β : Type) where
  files : List (String × β)
  reads : List String

/-- A file system held in memory.  Reading a missing file and renaming a
missing file fail; every read is recorded. -/
def memFS (β : Type) : FileSystem (memFiles β) β where
  ReadFile := fun path d =>
    (match d.files.lookup path with
      | some b => Except.ok b
      | none => Except.error (Err.collaborator 2),
      { d with reads := d.reads ++ [path] })
  WriteFile := fun path b d =>
    (none, { d with files := (path, b) :: d.files.filter (fun e => e.1 ≠ path) })
  Rename := fun oldpath newpath d =>
    match d.files.lookup oldpath with
    | none => (some (Err.collaborator 2), d)
    | some b =>
      (none, { d with files := (newpath, b) ::
        d.files.filter (fun e => e.1 ≠ oldpath ∧ e.1 ≠ newpath) })

/-- An encoding that keeps the slice as it is. -/
def plainJSON : JSON (List SpentTime) where
  Marshal := fun sts => Except.ok sts
  Unmarshal := fun b => Except.ok b

/-! ## Concrete inputs for backup and restore, after `cache_test.go` -/

/-- A session of user 8. -/
def otherSession : SpentTime :=
  { UserID := 8, PlanningID := 4, PlanningCreatedAt := 0, Started := 30, Last := 50,
    SpentOnline := 12 }

/-- A store with the sessions of users 7 and 8, each under its own user. -/
def twoStore : Store := testStore.insert 8 otherSession

/-- An iteration order of `twoStore`. -/
def twoEntries : List (Sigma fun _ : UserID => SpentTime) :=
  [⟨8, otherSession⟩, ⟨7, testSession⟩]

/-- An empty file system. -/
def noFiles : memFiles (List SpentTime) := { files := [], reads := [] }

/-! ## Package plannings: closing, range query, opened plannings -/

/-- Method `Service.ClosePlanning`.  The result is the returned error, the
session store and the collaborator state after the call. -/
def Service.ClosePlanning {σ : Type} (s : Service σ) (userID : UserID)
    (report : PlanningReport) (m : Store) (db : σ) : Option Err × Store × σ :=
  let r := SpentTimeInMemory.Modify m userID
    (ifNotEmpty (ifPlanningID report.PlanningID s.toHistory)) db
  match r.1.1 with
  | some err => (some (Err.wrap err "failed to modify spentTime storage"), r.1.2, r.2)
  | none =>
    let c := s.planningStorage.ClosePlanning userID report r.2
    match c.1 with
    | some err => (some (Err.wrap err "failed ot close planning"), r.1.2, c.2)
    | none => (none, r.1.2, c.2)

/-- Method `Service.SpentTime`.  The state captured by the callback is the
variable `onlineSpent`, zero at first.  The result is the pair `(int, error)`,
the session store and the collaborator state after the call. -/
def Service.SpentTime {σ : Type} (s : Service σ) (uid : UserID) (from_ to_ : Int)
    (m : Store) (db : σ) : (Int × Option Err) × Store × σ :=
  let r := SpentTimeInMemory.Modify m uid
    (ifNotEmpty (fun st (onlineSpent : Int) =>
      ((some st, none),
        if st.Started ≥ from_ ∧ st.Started ≤ to_ then st.SpentOnline else onlineSpent)))
    (0 : Int)
  match r.1.1 with
  | some err => ((0, some (Err.wrap err "cache error")), r.1.2, db)
  | none =>
    let q := s.planningStorage.SpentTimeByUserIDTimeRange uid from_ to_ db
    match q.1.2 with
    | some err => ((0, some (Err.wrap err "planning storage error")), r.1.2, q.2)
    | none => ((add64 r.2 q.1.1, none), r.1.2, q.2)

/-- Method `Service.OpenedPlannings`, with `timeNowFunc()` given as `now`: the
loop sets the field `Outdated` of every element of the slice. -/
def Service.OpenedPlannings {σ : Type} (s : Service σ) (now : Int) (uid : UserID)
    (db : σ) : (List ExtendedPlanning × Option Err) × σ :=
  let r := s.planningStorage.OpenedPlannings uid db
  match r.1.2 with
  | some err => (([], some (Err.wrap err "failed to load openedPlannings")), r.2)
  | none =>
    ((r.1.1.map (fun p =>
        { p with Outdated := s.isOutdated now p.toPlanning.CreatedAt p.LastActivity }),
      none), r.2)

/-! ## Package rpcsvc -/

/-- Function `errWithLog` of package `rpcsvc`; the logging, and with it the
arguments used only for the log line, is left out. -/
def errWithLog (err : Option Err) : Option Err :=
  match err with
  | none => none
  | some e =>
    if e.Cause = Err.deadlineExceeded then some Err.ErrTimeout
    else some e.Cause

/-! ## Concrete inputs for the opened plannings, after `TestOpenedPlannings` -/

/-- A planning with identifier `id`, creation time `createdAt` and zero
values in the other fields. -/
def planningOf (id : PlanningID) (createdAt : Int) : Planning :=
  { ID := id, UserID := 0, Status := PlanningStatus.Open, ProjectID := 0, TrackerID := 0,
    IssueID := 0, IssueTitle := "", IssueURL := "", IssueEstimation := 0, IssueDueDate := 0,
    IssueDone := 0, ActivityID := 0, SpentOnline := 0, SpentOffline := 0, Reported := 0,
    CreatedAt := createdAt }

/-- A collaborator whose state is the list of opened plannings it returns;
its other methods succeed with zero values. -/
def listingStorage : PlanningStorage (List ExtendedPlanning) where
  AddSpentTime := fun _ t => (none, t)
  ClosePlanning := fun _ _ t => (none, t)
  PlanningCreatedAt := fun _ t => ((0, none), t)
  LastActivity := fun _ t => ((0, none), t)
  Planning := fun _ t => ((none, none), t)
  OpenedPlannings := fun _ t => ((t, none), t)
  SpentTimeByUserIDTimeRange := fun _ _ _ t => ((0, none), t)

/-- The service of the tests over `listingStorage`: limits of 35 and 10
seconds. -/
def listingService : Service (List ExtendedPlanning) :=
  { planningStorage := listingStorage, maxPlanningAge := 35, maxFromLastUpdate := 10 }

/-- Two opened plannings: one created at 0 and never active, one created at
30 and last active at 38. -/
def twoPlannings : List ExtendedPlanning :=
  [{ toPlanning := planningOf 1 0, Estimation := 0, LastActivity := 0, Outdated := false },
   { toPlanning := planningOf 2 30, Estimation := 0, LastActivity := 38, Outdated := true }]

/-- A collaborator that records the history intervals like `testStorage` and
refuses to close a planning, as the storage does for a planning that is
closed already. -/
def closedStorage : PlanningStorage testPlanningStorage :=
  { testStorage with ClosePlanning := fun _ _ t => (some Err.ErrPlanningClosed, t) }

/-- The service of the tests over `closedStorage`. -/
def closedService : Service testPlanningStorage :=
  { planningStorage := closedStorage, maxPlanningAge := 35, maxFromLastUpdate := 10 }

/-! ## Runs of report calls and the session invariant -/

/-- A sequence of `AddSpentTime` calls, each with its clock value, run one
after the other on the store and the collaborator; the errors are dropped. -/
def Service.runReports {σ : Type} (s : Service σ) (calls : List (Int × SpentTimeReport))
    (m : Store) (db : σ) : Store × σ :=
  calls.foldl
    (fun acc c => ((s.AddSpentTime c.1 c.2 acc.1 acc.2).2.1, (s.AddSpentTime c.1 c.2 acc.1 acc.2).2.2))
    (m, db)

/-- The invariant of a session that started at a non-negative time: the
checkpoint is not before the start and is an `int64`, and the seconds credited
are between zero and the time elapsed, in exact arithmetic. -/
def SessionInvariant (st : SpentTime) : Prop :=
  0 ≤ st.Started ∧ st.Started ≤ st.Last ∧ st.Last ≤ 9223372036854775807 ∧
    0 ≤ st.SpentOnline ∧ st.SpentOnline ≤ st.Last - st.Started

/-- A session that started and has its checkpoint at the least `int64`. -/
def earliestSession : SpentTime :=
  { UserID := 7, PlanningID := 3, PlanningCreatedAt := 0,
    Started := -9223372036854775808, Last := -9223372036854775808, SpentOnline := 0 }

/-! ## The keys of the session map -/

/-- Method `SpentTimeInMemory.getAndDelete`: the session of `userID`, or `nil`,
and the map without it. -/
def SpentTimeInMemory.getAndDelete (m : Store) (userID : UserID) :
    Option SpentTime × Store :=
  match m.lookup userID with
  | some st => (some st, m.erase userID)
  | none => (none, m)

/-- Every session of the map is stored under its own `UserID`, as the comment
of `NewSpentTime` has it: "SpentTime in storage unique by UserID". -/
def OwnKeys (m : Store) : Prop :=
  ∀ (u : UserID) (st : SpentTime), m.lookup u = some st → st.UserID = u

/-- The session maps that the program builds: the empty map made by
`NewSpentTimeInMemory`, and what `fromSlice`, `restore`, `NewSpentTime`,
`getAndDelete` and the four methods of `Service` that call `Modify` make of
such a map, for every argument, clock value, collaborator state and file
system.  `backup` leaves the map as it is. -/
inductive Reachable {σ : Type} (s : Service σ) : Store → Prop where
  | make : Reachable s ∅
  | fromSlice (m : Store) (sts : List SpentTime) :
      Reachable s m → Reachable s (SpentTimeInMemory.fromSlice m sts)
  | restore {φ β : Type} (fs : FileSystem φ β) (json : JSON β) (backupFolder : String)
      (m : Store) (d : φ) :
      Reachable s m → Reachable s (SpentTimeInMemory.restore fs json backupFolder m d).2.1
  | newSpentTime (m : Store) (st : SpentTime) :
      Reachable s m → Reachable s (SpentTimeInMemory.NewSpentTime m st).2
  | getAndDelete (m : Store) (userID : UserID) :
      Reachable s m → Reachable s (SpentTimeInMemory.getAndDelete m userID).2
  | addSpentTime (now : Int) (report : SpentTimeReport) (m : Store) (db : σ) :
      Reachable s m → Reachable s (s.AddSpentTime now report m db).2.1
  | setActive (a : NewActivePlanning) (m : Store) (db : σ) :
      Reachable s m → Reachable s (s.SetActive a m db).2.1
  | closePlanning (userID : UserID) (report : PlanningReport) (m : Store) (db : σ) :
      Reachable s m → Reachable s (s.ClosePlanning userID report m db).2.1
  | spentTime (uid : UserID) (from_ to_ : Int) (m : Store) (db : σ) :
      Reachable s m → Reachable s (s.SpentTime uid from_ to_ m db).2.1

/-! ## Lemmas -/

theorem wrap64_exact {x : Int} (h : IsInt64 x) : wrap64 x = x := by
  unfold IsInt64 at h
  unfold wrap64
  omega

theorem wrap64_isInt64 (x : Int) : IsInt64 (wrap64 x) := by
  unfold IsInt64 wrap64
  omega

theorem sub64_exact {a b : Int} (h : IsInt64 (a - b)) : sub64 a b = a - b :=
  wrap64_exact h

theorem add64_exact {a b : Int} (h : IsInt64 (a + b)) : add64 a b = a + b :=
  wrap64_exact h

theorem Store.insert_lookup_self {m : Store} {u : UserID} {st : SpentTime}
    (h : m.lookup u = some st) : m.insert u st = m := by
  apply Finmap.ext_lookup
  intro x
  by_cases hx : x = u
  · subst hx
    rw [Finmap.lookup_insert, h]
  · rw [Finmap.lookup_insert_of_ne _ hx]

theorem Store.erase_lookup_none {m : Store} {u : UserID}
    (h : m.lookup u = none) : m.erase u = m := by
  apply Finmap.ext_lookup
  intro x
  by_cases hx : x = u
  · subst hx
    rw [Finmap.lookup_erase, h]
  · rw [Finmap.lookup_erase_ne hx]

theorem Modify_checkNotEmpty_none {κ : Type} {m : Store} {u : UserID}
    (f : spentTimeFunc κ) (k : κ) (h : m.lookup u = none) :
    SpentTimeInMemory.Modify m u (checkNotEmpty f) k
      = ((some Err.ErrNoActivePlanning, m), k) := by
  simp [SpentTimeInMemory.Modify, checkNotEmpty, h, Store.erase_lookup_none h]

theorem Modify_checkNotEmpty_keep {κ : Type} {m : Store} {u : UserID} {st st' : SpentTime}
    (f : spentTimeFunc κ) (k k' : κ) (e : Option Err) (h : m.lookup u = some st)
    (hf : f st k = ((some st', e), k')) :
    SpentTimeInMemory.Modify m u (checkNotEmpty f) k = ((e, m.insert u st'), k') := by
  simp [SpentTimeInMemory.Modify, checkNotEmpty, h, hf]


theorem AddSpentTime_no_session {σ : Type} (s : Service σ) (now : Int)
    (report : SpentTimeReport) (m : Store) (db : σ)
    (h : m.lookup report.UserID = none) :
    s.AddSpentTime now report m db = (some Err.ErrNoActivePlanning, m, db) := by
  simp [Service.AddSpentTime, Modify_checkNotEmpty_none _ _ h]

theorem AddSpentTime_session {σ : Type} (s : Service σ) (now : Int)
    (report : SpentTimeReport) (m : Store) (db : σ) (st : SpentTime)
    (h : m.lookup report.UserID = some st) :
    s.AddSpentTime now report m db =
      if (s.checkReport now st report).2 = some Err.errOfflineSpentTime then
        match (s.planningStorage.AddSpentTime
            (reportToHistory (s.checkReport now st report).1 SpentTimeStatus.Offline) db).1 with
        | some saveErr =>
          (some (Err.wrapf Err.errOfflineSpentTime "fail to save spenttime history: %+v" saveErr),
            m, (s.planningStorage.AddSpentTime
              (reportToHistory (s.checkReport now st report).1 SpentTimeStatus.Offline) db).2)
        | none =>
          (none, m.insert report.UserID
            { st with
              Last := (s.checkReport now st report).1.Time,
              SpentOnline := add64 st.SpentOnline (s.checkReport now st report).1.Spent },
            (s.planningStorage.AddSpentTime
              (reportToHistory (s.checkReport now st report).1 SpentTimeStatus.Offline) db).2)
      else
        match (s.checkReport now st report).2 with
        | some err => (some (Err.wrap err "invalid report"), m, db)
        | none =>
          (none, m.insert report.UserID
            { st with
              Last := (s.checkReport now st report).1.Time,
              SpentOnline := add64 st.SpentOnline (s.checkReport now st report).1.Spent }, db) := by
  have h1 : SpentTimeInMemory.Modify m report.UserID
      (checkNotEmpty (fun st (_ : SpentTime) => ((some st, none), st)))
      ({ UserID := 0, PlanningID := 0, PlanningCreatedAt := 0,
         Started := 0, Last := 0, SpentOnline := 0 } : SpentTime)
      = ((none, m), st) := by
    rw [Modify_checkNotEmpty_keep _ _ st none h rfl, Store.insert_lookup_self h]
  have h2 : ∀ nr : SpentTimeReport, SpentTimeInMemory.Modify m report.UserID
      (checkNotEmpty (incrementTime nr)) ()
      = ((none, m.insert report.UserID { st with Last := nr.Time, SpentOnline := add64 st.SpentOnline nr.Spent }), ()) := by
    intro nr
    exact Modify_checkNotEmpty_keep _ _ () none h rfl
  unfold Service.AddSpentTime
  simp only [h1, h2]


theorem checkReport_pass {σ : Type} (s : Service σ) (now : Int) (st : SpentTime)
    (report : SpentTimeReport)
    (hclock : st.Last ≤ now ∧ st.Started ≤ now)
    (hid : st.PlanningID = report.PlanningID)
    (hord : st.Last ≤ report.Time)
    (hsign : 0 ≤ report.Spent)
    (hstale : s.isOutdated report.Time st.PlanningCreatedAt st.Last = false) :
    s.checkReport now st report =
      ({ report with Spent := min report.Spent (sub64 report.Time st.Last) },
        if sub64 now st.Last > fiveMinutesInSeconds then some Err.errOfflineSpentTime
        else none) := by
  have h1 : ¬ (now < st.Last ∨ now < st.Started) := by omega
  have h3 : ¬ report.Time < st.Last := by omega
  have h4 : ¬ report.Spent < 0 := by omega
  have h2 : ¬ st.PlanningID ≠ report.PlanningID := not_not.mpr hid
  unfold Service.checkReport
  rw [if_neg h1, if_neg h2, if_neg h3, if_neg h4, hstale]
  by_cases hc : sub64 report.Time st.Last < report.Spent
  · have hmin : min report.Spent (sub64 report.Time st.Last) = sub64 report.Time st.Last :=
      min_eq_right (le_of_lt hc)
    by_cases hoff : sub64 now st.Last > fiveMinutesInSeconds <;> simp [hc, hoff, hmin]
  · have hmin : min report.Spent (sub64 report.Time st.Last) = report.Spent :=
      min_eq_left (not_lt.mp hc)
    by_cases hoff : sub64 now st.Last > fiveMinutesInSeconds <;> simp [hc, hoff, hmin]

/-- A report goes past `checkReport` (no error, or the Offline sentinel) only
when it passes the five checks. -/
theorem checkReport_accepts {σ : Type} (s : Service σ) (now : Int) (st : SpentTime)
    (report : SpentTimeReport)
    (h : (s.checkReport now st report).2 = none ∨
      (s.checkReport now st report).2 = some Err.errOfflineSpentTime) :
    (st.Last ≤ now ∧ st.Started ≤ now) ∧ st.PlanningID = report.PlanningID ∧
      st.Last ≤ report.Time ∧ 0 ≤ report.Spent ∧
      s.isOutdated report.Time st.PlanningCreatedAt st.Last = false := by
  unfold Service.checkReport at h
  split_ifs at h with h1 h2 h3 h4 h5 <;> simp at h
  all_goals
    refine ⟨by omega, by simpa using h2, by omega, by omega, by simpa using h5⟩


/-- Every call on a user with a session either fails and leaves the store as
it was, or returns `nil` on a report that passes the five checks and stores
the advanced session. -/
theorem AddSpentTime_outcome {σ : Type} (s : Service σ) (now : Int)
    (r : SpentTimeReport) (m : Store) (db : σ) (st : SpentTime)
    (hst : m.lookup r.UserID = some st) :
    ((s.AddSpentTime now r m db).1 ≠ none ∧ (s.AddSpentTime now r m db).2.1 = m) ∨
    ((s.AddSpentTime now r m db).1 = none ∧
      ((st.Last ≤ now ∧ st.Started ≤ now) ∧ st.PlanningID = r.PlanningID ∧
        st.Last ≤ r.Time ∧ 0 ≤ r.Spent ∧
        s.isOutdated r.Time st.PlanningCreatedAt st.Last = false) ∧
      (s.AddSpentTime now r m db).2.1 = m.insert r.UserID
        { st with Last := r.Time,
                  SpentOnline := add64 st.SpentOnline (min r.Spent (sub64 r.Time st.Last)) }) := by
  rw [AddSpentTime_session s now r m db st hst]
  by_cases hoff : (s.checkReport now st r).2 = some Err.errOfflineSpentTime
  · have hp := checkReport_accepts s now st r (Or.inr hoff)
    obtain ⟨hclock, hid, hord, hsign, hstale⟩ := hp
    have hc := checkReport_pass s now st r hclock hid hord hsign hstale
    rw [if_pos hoff]
    cases hw : (s.planningStorage.AddSpentTime
        (reportToHistory (s.checkReport now st r).1 SpentTimeStatus.Offline) db).1 with
    | some se => left; simp
    | none =>
      right
      refine ⟨rfl, ⟨hclock, hid, hord, hsign, hstale⟩, ?_⟩
      simp [hc]
  · rw [if_neg hoff]
    cases hc2 : (s.checkReport now st r).2 with
    | some e => left; simp
    | none =>
      have hp := checkReport_accepts s now st r (Or.inl hc2)
      obtain ⟨hclock, hid, hord, hsign, hstale⟩ := hp
      have hc := checkReport_pass s now st r hclock hid hord hsign hstale
      right
      refine ⟨rfl, ⟨hclock, hid, hord, hsign, hstale⟩, ?_⟩
      simp [hc]

theorem wrap64_le_self {x : Int} (h : 0 ≤ x) : wrap64 x ≤ x := by
  unfold wrap64
  omega

/-- A report that `checkReport` rejects with an error other than the Offline
sentinel makes `AddSpentTime` return that error wrapped, with the store and
the collaborator untouched. -/
theorem AddSpentTime_invalid {σ : Type} (s : Service σ) (now : Int)
    (r : SpentTimeReport) (m : Store) (db : σ) (st : SpentTime) (e : Err)
    (hst : m.lookup r.UserID = some st)
    (hc : (s.checkReport now st r).2 = some e) (he : e ≠ Err.errOfflineSpentTime) :
    s.AddSpentTime now r m db = (some (Err.wrap e "invalid report"), m, db) := by
  have hoff : ¬ (s.checkReport now st r).2 = some Err.errOfflineSpentTime := by
    rw [hc]
    intro h
    exact he (Option.some.inj h)
  rw [AddSpentTime_session s now r m db st hst, if_neg hoff, hc]

theorem checkReport_identity {σ : Type} (s : Service σ) (now : Int) (st : SpentTime)
    (report : SpentTimeReport)
    (hclock : st.Last ≤ now ∧ st.Started ≤ now)
    (hid : st.PlanningID ≠ report.PlanningID) :
    s.checkReport now st report = (report, some Err.ErrInvalidPlanningID) := by
  have h1 : ¬ (now < st.Last ∨ now < st.Started) := by omega
  unfold Service.checkReport
  rw [if_neg h1, if_pos hid]

theorem checkReport_ordering {σ : Type} (s : Service σ) (now : Int) (st : SpentTime)
    (report : SpentTimeReport)
    (hclock : st.Last ≤ now ∧ st.Started ≤ now)
    (hid : st.PlanningID = report.PlanningID)
    (hord : report.Time < st.Last) :
    s.checkReport now st report = (report, some Err.ErrOutdatedReport) := by
  have h1 : ¬ (now < st.Last ∨ now < st.Started) := by omega
  have h2 : ¬ st.PlanningID ≠ report.PlanningID := not_not.mpr hid
  unfold Service.checkReport
  rw [if_neg h1, if_neg h2, if_pos hord]

theorem checkReport_sign {σ : Type} (s : Service σ) (now : Int) (st : SpentTime)
    (report : SpentTimeReport)
    (hclock : st.Last ≤ now ∧ st.Started ≤ now)
    (hid : st.PlanningID = report.PlanningID)
    (hord : st.Last ≤ report.Time)
    (hsign : report.Spent < 0) :
    s.checkReport now st report = (report, some Err.ErrNegativeSpentTime) := by
  have h1 : ¬ (now < st.Last ∨ now < st.Started) := by omega
  have h2 : ¬ st.PlanningID ≠ report.PlanningID := not_not.mpr hid
  have h3 : ¬ report.Time < st.Last := by omega
  unfold Service.checkReport
  rw [if_neg h1, if_neg h2, if_neg h3, if_pos hsign]

theorem checkReport_stale {σ : Type} (s : Service σ) (now : Int) (st : SpentTime)
    (report : SpentTimeReport)
    (hclock : st.Last ≤ now ∧ st.Started ≤ now)
    (hid : st.PlanningID = report.PlanningID)
    (hord : st.Last ≤ report.Time)
    (hsign : 0 ≤ report.Spent)
    (hstale : s.isOutdated report.Time st.PlanningCreatedAt st.Last = true) :
    s.checkReport now st report = (report, some Err.ErrPlanningOutdated) := by
  have h1 : ¬ (now < st.Last ∨ now < st.Started) := by omega
  have h2 : ¬ st.PlanningID ≠ report.PlanningID := not_not.mpr hid
  have h3 : ¬ report.Time < st.Last := by omega
  have h4 : ¬ report.Spent < 0 := by omega
  unfold Service.checkReport
  rw [if_neg h1, if_neg h2, if_neg h3, if_neg h4, if_pos hstale]

theorem isOutdated_iff {σ : Type} (s : Service σ) (time created last : Int) :
    s.isOutdated time created last = true ↔
      (sub64 time created > s.maxPlanningAge ∨
        (last > 0 ∧ sub64 time last > s.maxFromLastUpdate)) := by
  simp [Service.isOutdated]


theorem checkReport_clock {σ : Type} (s : Service σ) (now : Int) (st : SpentTime)
    (report : SpentTimeReport)
    (hclock : now < st.Last ∨ now < st.Started) :
    s.checkReport now st report = (report, some (Err.invalidSpentTime now st)) := by
  unfold Service.checkReport
  rw [if_pos hclock]

/-- The flush of `SetActive` on a user without a session does nothing. -/
theorem flush_no_session {σ : Type} (s : Service σ) (u : UserID) (m : Store) (db : σ)
    (h : m.lookup u = none) :
    SpentTimeInMemory.Modify m u (ifNotEmpty s.toHistory) db = ((none, m), db) := by
  simp [SpentTimeInMemory.Modify, ifNotEmpty, h, Store.erase_lookup_none h]

/-- The flush of `SetActive` on a session whose history write succeeds writes
the Online interval of the session and deletes the session. -/
theorem flush_session_ok {σ : Type} (s : Service σ) (u : UserID) (m : Store) (db : σ)
    (st : SpentTime) (h : m.lookup u = some st)
    (hw : (s.planningStorage.AddSpentTime
      (spentTimeToHistory st SpentTimeStatus.Online) db).1 = none) :
    SpentTimeInMemory.Modify m u (ifNotEmpty s.toHistory) db =
      ((none, m.erase u),
        (s.planningStorage.AddSpentTime (spentTimeToHistory st SpentTimeStatus.Online) db).2) := by
  simp [SpentTimeInMemory.Modify, ifNotEmpty, h, Service.toHistory,
    Service.spentTimeToHistory, hw]

/-- The flush of `SetActive` on a session whose history write fails keeps the
session and returns the wrapped error. -/
theorem flush_session_fail {σ : Type} (s : Service σ) (u : UserID) (m : Store) (db : σ)
    (st : SpentTime) (e : Err) (h : m.lookup u = some st)
    (hw : (s.planningStorage.AddSpentTime
      (spentTimeToHistory st SpentTimeStatus.Online) db).1 = some e) :
    SpentTimeInMemory.Modify m u (ifNotEmpty s.toHistory) db =
      ((some (Err.wrap e "failed to save spent time history to storage"), m),
        (s.planningStorage.AddSpentTime (spentTimeToHistory st SpentTimeStatus.Online) db).2) := by
  simp [SpentTimeInMemory.Modify, ifNotEmpty, h, Service.toHistory,
    Service.spentTimeToHistory, hw, Store.insert_lookup_self h]

/-- A flush that returns no error leaves the store without an entry for the
user. -/
theorem flush_ok_store {σ : Type} (s : Service σ) (u : UserID) (m : Store) (db : σ)
    (h : (SpentTimeInMemory.Modify m u (ifNotEmpty s.toHistory) db).1.1 = none) :
    (SpentTimeInMemory.Modify m u (ifNotEmpty s.toHistory) db).1.2 = m.erase u := by
  cases hst : m.lookup u with
  | none => rw [flush_no_session s u m db hst, Store.erase_lookup_none hst]
  | some st =>
    cases hw : (s.planningStorage.AddSpentTime
        (spentTimeToHistory st SpentTimeStatus.Online) db).1 with
    | none => rw [flush_session_ok s u m db st hst hw]
    | some e =>
      rw [flush_session_fail s u m db st e hst hw] at h
      simp at h

/-- After a flush without error the store of `SetActive` is the old store
without the entry of the user, or that store with a brand-new session of the
user. -/
theorem SetActive_store {σ : Type} (s : Service σ) (a : NewActivePlanning)
    (m : Store) (db : σ)
    (hflush : (SpentTimeInMemory.Modify m a.UserID (ifNotEmpty s.toHistory) db).1.1 = none) :
    (s.SetActive a m db).2.1 = m.erase a.UserID ∨
      ∃ c : Int, (s.SetActive a m db).2.1 = (m.erase a.UserID).insert a.UserID
        { UserID := a.UserID, PlanningID := a.PlanningID, PlanningCreatedAt := c,
          Started := a.Time, Last := a.Time, SpentOnline := 0 } := by
  have hstore := flush_ok_store s a.UserID m db hflush
  by_cases hpid : a.PlanningID = 0
  · left
    simp [Service.SetActive, hflush, hstore, hpid]
  · cases hla : (s.planningStorage.LastActivity a.UserID
        (SpentTimeInMemory.Modify m a.UserID (ifNotEmpty s.toHistory) db).2).1.2 with
    | some e =>
      left
      simp [Service.SetActive, hflush, hstore, hpid, hla]
    | none =>
      by_cases hgt : (s.planningStorage.LastActivity a.UserID
          (SpentTimeInMemory.Modify m a.UserID (ifNotEmpty s.toHistory) db).2).1.1 > a.Time
      · left
        simp [Service.SetActive, hflush, hstore, hpid, hla, hgt]
      · cases hca : (s.planningStorage.PlanningCreatedAt a.PlanningID
            (s.planningStorage.LastActivity a.UserID
              (SpentTimeInMemory.Modify m a.UserID (ifNotEmpty s.toHistory) db).2).2).1.2 with
        | some e =>
          left
          simp [Service.SetActive, hflush, hstore, hpid, hla, hgt, hca]
        | none =>
          right
          refine ⟨(s.planningStorage.PlanningCreatedAt a.PlanningID
            (s.planningStorage.LastActivity a.UserID
              (SpentTimeInMemory.Modify m a.UserID (ifNotEmpty s.toHistory) db).2).2).1.1, ?_⟩
          simp [Service.SetActive, hflush, hstore, hpid, hla, hgt, hca,
            SpentTimeInMemory.NewSpentTime]

theorem AddSpentTimeOn_inMemory {σ : Type} (s : Service σ) (now : Int)
    (r : SpentTimeReport) (m : Store) (db : σ) :
    s.AddSpentTimeOn inMemory now r m db = s.AddSpentTime now r m db := rfl

/-- On the counting store, `AddSpentTime` gives the error, the store and the
collaborator state that it gives on the plain store, and calls `Modify` twice
when it returns `nil` and once when it returns an error. -/
theorem AddSpentTimeOn_countModify {σ : Type} (s : Service σ) (now : Int)
    (r : SpentTimeReport) (m : Store) (n : Nat) (db : σ) :
    s.AddSpentTimeOn (countModify inMemory) now r (m, n) db =
      ((s.AddSpentTime now r m db).1,
        ((s.AddSpentTime now r m db).2.1,
          n + (if (s.AddSpentTime now r m db).1 = none then 2 else 1)),
        (s.AddSpentTime now r m db).2.2) := by
  cases hst : m.lookup r.UserID with
  | none =>
    rw [AddSpentTime_no_session s now r m db hst]
    simp [Service.AddSpentTimeOn, countModify, inMemory, Modify_checkNotEmpty_none _ _ hst]
  | some st =>
    have h1 : SpentTimeInMemory.Modify m r.UserID
        (checkNotEmpty (fun st (_ : SpentTime) => ((some st, none), st)))
        ({ UserID := 0, PlanningID := 0, PlanningCreatedAt := 0,
           Started := 0, Last := 0, SpentOnline := 0 } : SpentTime)
        = ((none, m), st) := by
      rw [Modify_checkNotEmpty_keep _ _ st none hst rfl, Store.insert_lookup_self hst]
    have h2 : ∀ nr : SpentTimeReport, SpentTimeInMemory.Modify m r.UserID
        (checkNotEmpty (incrementTime nr)) ()
        = ((none, m.insert r.UserID
            { st with Last := nr.Time, SpentOnline := add64 st.SpentOnline nr.Spent }), ()) := by
      intro nr
      exact Modify_checkNotEmpty_keep _ _ () none hst rfl
    rw [AddSpentTime_session s now r m db st hst]
    unfold Service.AddSpentTimeOn
    simp only [countModify, inMemory, h1, h2]
    by_cases hoff : (s.checkReport now st r).2 = some Err.errOfflineSpentTime
    · simp only [if_pos hoff]
      cases hw : (s.planningStorage.AddSpentTime
          (reportToHistory (s.checkReport now st r).1 SpentTimeStatus.Offline) db).1 <;> simp
    · simp only [if_neg hoff]
      cases hc : (s.checkReport now st r).2 <;> simp

theorem toSlice_eq_map (entries : List (Sigma fun _ : UserID => SpentTime)) :
    SpentTimeInMemory.toSlice entries =
      entries.map (fun e => ({ e.2 with UserID := e.1 } : SpentTime)) := by
  have h : ∀ (l : List (Sigma fun _ : UserID => SpentTime)) (acc : List SpentTime),
      l.foldl (fun sts e => sts ++ [({ e.2 with UserID := e.1 } : SpentTime)]) acc =
        acc ++ l.map (fun e => ({ e.2 with UserID := e.1 } : SpentTime)) := by
    intro l
    induction l with
    | nil => intro acc; simp
    | cons e es ih =>
      intro acc
      rw [List.foldl_cons, ih, List.map_cons, List.append_assoc]
      rfl
  unfold SpentTimeInMemory.toSlice
  rw [h]
  rfl

/-- Loading the slice of a duplicate-free sequence of entries: the entry of
`u` is the session listed under `u`, with `UserID` set to `u`, or the entry
held before when `u` is not listed. -/
theorem fromSlice_toSlice_lookup (u : UserID) :
    ∀ (entries : List (Sigma fun _ : UserID => SpentTime)) (m0 : Store),
      entries.NodupKeys →
      (SpentTimeInMemory.fromSlice m0 (SpentTimeInMemory.toSlice entries)).lookup u =
        match entries.dlookup u with
        | some st => some { st with UserID := u }
        | none => m0.lookup u := by
  intro entries
  induction entries with
  | nil =>
    intro m0 _
    rfl
  | cons e es ih =>
    intro m0 hnd
    obtain ⟨hnot, hnd'⟩ := List.nodupKeys_cons.mp hnd
    have hstep : SpentTimeInMemory.fromSlice m0 (SpentTimeInMemory.toSlice (e :: es)) =
        SpentTimeInMemory.fromSlice (m0.insert e.1 { e.2 with UserID := e.1 })
          (SpentTimeInMemory.toSlice es) := by
      rw [toSlice_eq_map, toSlice_eq_map]
      rfl
    rw [hstep, ih _ hnd']
    by_cases hu : u = e.1
    · subst hu
      have h1 : es.dlookup e.1 = none := List.dlookup_eq_none.mpr hnot
      obtain ⟨k, v⟩ := e
      rw [h1, List.dlookup_cons_eq]
      exact Finmap.lookup_insert m0
    · rw [List.dlookup_cons_ne es e hu]
      cases es.dlookup u with
      | some st => rfl
      | none => exact Finmap.lookup_insert_of_ne m0 hu

/-- The entry of a map for `u`, read from an enumeration of its entries. -/
theorem lookup_of_enumeration (m : Store) (entries : List (Sigma fun _ : UserID => SpentTime))
    (h : (entries : Multiset (Sigma fun _ : UserID => SpentTime)) = m.entries) (u : UserID) :
    entries.NodupKeys ∧ m.lookup u = entries.dlookup u := by
  induction m using Finmap.induction_on with
  | H s =>
    have hp : entries.Perm s.entries := Quotient.exact h
    have hnd : entries.NodupKeys := (List.perm_nodupKeys hp).mpr s.nodupKeys
    exact ⟨hnd, (List.perm_dlookup u hnd s.nodupKeys hp).symm⟩

/-- Backing up the iteration `entries` of the map `m` and loading the slice
into an empty map gives, for every user, the session of `m` with its `UserID`
set to its key. -/
theorem fromSlice_toSlice (m : Store) (entries : List (Sigma fun _ : UserID => SpentTime))
    (h : (entries : Multiset (Sigma fun _ : UserID => SpentTime)) = m.entries) (u : UserID) :
    (SpentTimeInMemory.fromSlice ∅ (SpentTimeInMemory.toSlice entries)).lookup u =
      (m.lookup u).map (fun st => { st with UserID := u }) := by
  obtain ⟨hnd, hl⟩ := lookup_of_enumeration m entries h u
  rw [fromSlice_toSlice_lookup u entries ∅ hnd, hl]
  cases entries.dlookup u with
  | some st => rfl
  | none => exact Finmap.lookup_empty u

/-- A map whose sessions sit under their own `UserID` is its own image under
the rewriting of `toSlice`. -/
theorem Store.eq_of_lookup_normalised (m m' : Store)
    (hinv : ∀ (u : UserID) (st : SpentTime), m.lookup u = some st → st.UserID = u)
    (h : ∀ u : UserID, m'.lookup u = (m.lookup u).map (fun st => { st with UserID := u })) :
    m' = m := by
  apply Finmap.ext_lookup
  intro u
  rw [h u]
  cases hst : m.lookup u with
  | none => rfl
  | some st =>
    have := hinv u st hst
    subst this
    rfl

theorem twoStore_own_keys :
    ∀ (u : UserID) (st : SpentTime), twoStore.lookup u = some st → st.UserID = u := by
  intro u st h
  unfold twoStore testStore at h
  by_cases h8 : u = 8
  · subst h8
    rw [Finmap.lookup_insert] at h
    rw [← Option.some.inj h]
    rfl
  · rw [Finmap.lookup_insert_of_ne _ h8] at h
    by_cases h7 : u = 7
    · subst h7
      rw [Finmap.lookup_insert] at h
      rw [← Option.some.inj h]
      rfl
    · rw [Finmap.lookup_insert_of_ne _ h7, Finmap.lookup_empty] at h
      simp at h

/-- The conditional flush of `ClosePlanning` on a user without a session does
nothing. -/
theorem closeFlush_no_session {σ : Type} (s : Service σ) (u : UserID) (pid : PlanningID)
    (m : Store) (db : σ) (h : m.lookup u = none) :
    SpentTimeInMemory.Modify m u (ifNotEmpty (ifPlanningID pid s.toHistory)) db
      = ((none, m), db) := by
  simp [SpentTimeInMemory.Modify, ifNotEmpty, h, Store.erase_lookup_none h]

/-- The conditional flush of `ClosePlanning` on a session of another planning
does nothing. -/
theorem closeFlush_other {σ : Type} (s : Service σ) (u : UserID) (pid : PlanningID)
    (m : Store) (db : σ) (st : SpentTime) (h : m.lookup u = some st)
    (hne : st.PlanningID ≠ pid) :
    SpentTimeInMemory.Modify m u (ifNotEmpty (ifPlanningID pid s.toHistory)) db
      = ((none, m), db) := by
  simp [SpentTimeInMemory.Modify, ifNotEmpty, ifPlanningID, h, hne,
    Store.insert_lookup_self h]

/-- On a session of the planning that is closed the conditional flush is the
flush of `SetActive`. -/
theorem closeFlush_match {σ : Type} (s : Service σ) (u : UserID) (pid : PlanningID)
    (m : Store) (db : σ) (st : SpentTime) (h : m.lookup u = some st)
    (heq : st.PlanningID = pid) :
    SpentTimeInMemory.Modify m u (ifNotEmpty (ifPlanningID pid s.toHistory)) db
      = SpentTimeInMemory.Modify m u (ifNotEmpty s.toHistory) db := by
  simp [SpentTimeInMemory.Modify, ifNotEmpty, ifPlanningID, h, heq]

/-- The read of `Service.SpentTime`: the store is left as it is and the
captured variable holds `SpentOnline` of a session started inside the range,
zero otherwise. -/
theorem spentTime_read (uid : UserID) (from_ to_ : Int) (m : Store) :
    SpentTimeInMemory.Modify m uid
        (ifNotEmpty (fun st (onlineSpent : Int) =>
          ((some st, none),
            if st.Started ≥ from_ ∧ st.Started ≤ to_ then st.SpentOnline else onlineSpent)))
        (0 : Int) =
      ((none, m),
        match m.lookup uid with
        | some st => if from_ ≤ st.Started ∧ st.Started ≤ to_ then st.SpentOnline else 0
        | none => 0) := by
  cases h : m.lookup uid with
  | none => simp [SpentTimeInMemory.Modify, ifNotEmpty, h, Store.erase_lookup_none h]
  | some st => simp [SpentTimeInMemory.Modify, ifNotEmpty, h, Store.insert_lookup_self h]

theorem SetActive_nil_flush {σ : Type} (s : Service σ) (a : NewActivePlanning)
    (m : Store) (db : σ) (h : (s.SetActive a m db).1 = none) :
    (SpentTimeInMemory.Modify m a.UserID (ifNotEmpty s.toHistory) db).1.1 = none := by
  cases hf : (SpentTimeInMemory.Modify m a.UserID (ifNotEmpty s.toHistory) db).1.1 with
  | none => rfl
  | some e =>
    simp [Service.SetActive, hf] at h

/-- A session of the user found in the store after a `SetActive` call that
returned `nil` is the new one. -/
theorem SetActive_created {σ : Type} (s : Service σ) (a : NewActivePlanning)
    (m : Store) (db : σ) (st : SpentTime)
    (h : (s.SetActive a m db).1 = none)
    (hst : (s.SetActive a m db).2.1.lookup a.UserID = some st) :
    st.Started = a.Time ∧ st.Last = a.Time ∧ st.SpentOnline = 0 := by
  rcases SetActive_store s a m db (SetActive_nil_flush s a m db h) with hs | ⟨c, hs⟩
  · rw [hs, Finmap.lookup_erase] at hst
    simp at hst
  · rw [hs, Finmap.lookup_insert] at hst
    have := Option.some.inj hst
    subst this
    exact ⟨rfl, rfl, rfl⟩

/-- An accepted report keeps the invariant of the session. -/
theorem advance_invariant (st : SpentTime) (r : SpentTimeReport)
    (hinv : SessionInvariant st) (hord : st.Last ≤ r.Time) (hsign : 0 ≤ r.Spent)
    (hT : IsInt64 r.Time) :
    SessionInvariant
      { st with
        Last := r.Time,
        SpentOnline := add64 st.SpentOnline (min r.Spent (sub64 r.Time st.Last)) } := by
  obtain ⟨h0, h1, h2, h3, h4⟩ := hinv
  unfold IsInt64 at hT
  have hd : sub64 r.Time st.Last = r.Time - st.Last :=
    sub64_exact ⟨by omega, by omega⟩
  rw [hd]
  have hc0 : 0 ≤ min r.Spent (r.Time - st.Last) := le_min hsign (by omega)
  have hc1 : min r.Spent (r.Time - st.Last) ≤ r.Time - st.Last := min_le_right _ _
  generalize min r.Spent (r.Time - st.Last) = c at hc0 hc1
  have ha : add64 st.SpentOnline c = st.SpentOnline + c :=
    add64_exact ⟨by omega, by omega⟩
  rw [ha]
  refine ⟨h0, ?_, ?_, ?_, ?_⟩
  · show st.Started ≤ r.Time
    omega
  · show r.Time ≤ 9223372036854775807
    omega
  · show 0 ≤ st.SpentOnline + c
    omega
  · show st.SpentOnline + c ≤ r.Time - st.Started
    omega

/-- One `AddSpentTime` call, for any user, keeps the invariant of the session
of `u`. -/
theorem AddSpentTime_keeps_invariant {σ : Type} (s : Service σ) (u : UserID) (now : Int)
    (r : SpentTimeReport) (m : Store) (db : σ) (hT : IsInt64 r.Time)
    (hm : ∀ st : SpentTime, m.lookup u = some st → SessionInvariant st) :
    ∀ st : SpentTime, (s.AddSpentTime now r m db).2.1.lookup u = some st →
      SessionInvariant st := by
  intro st' hst'
  cases hst : m.lookup r.UserID with
  | none =>
    rw [AddSpentTime_no_session s now r m db hst] at hst'
    exact hm st' hst'
  | some st =>
    rcases AddSpentTime_outcome s now r m db st hst with ⟨_, hsame⟩ | ⟨_, hpass, hstore⟩
    · rw [hsame] at hst'
      exact hm st' hst'
    · obtain ⟨_, _, hord, hsign, _⟩ := hpass
      rw [hstore] at hst'
      by_cases hu : u = r.UserID
      · subst hu
        rw [Finmap.lookup_insert] at hst'
        have := Option.some.inj hst'
        subst this
        exact advance_invariant st r (hm st hst) hord hsign hT
      · rw [Finmap.lookup_insert_of_ne _ hu] at hst'
        exact hm st' hst'

/-- A run of `AddSpentTime` calls keeps the invariant of the session of `u`. -/
theorem runReports_keeps_invariant {σ : Type} (s : Service σ) (u : UserID) :
    ∀ (calls : List (Int × SpentTimeReport)) (m : Store) (db : σ),
      (∀ c ∈ calls, IsInt64 c.2.Time) →
      (∀ st : SpentTime, m.lookup u = some st → SessionInvariant st) →
      ∀ st : SpentTime, (s.runReports calls m db).1.lookup u = some st →
        SessionInvariant st := by
  intro calls
  induction calls with
  | nil =>
    intro m db _ hm st hst
    exact hm st hst
  | cons c cs ih =>
    intro m db hT hm st hst
    have hstep := AddSpentTime_keeps_invariant s u c.1 c.2 m db
      (hT c (List.mem_cons_self _ _)) hm
    exact ih _ _ (fun c' hc' => hT c' (List.mem_cons_of_mem _ hc')) hstep st hst

theorem OwnKeys_empty : OwnKeys ∅ := by
  intro u st h
  rw [Finmap.lookup_empty] at h
  exact Option.noConfusion h

theorem OwnKeys_insert {m : Store} (hm : OwnKeys m) (u : UserID) (st : SpentTime)
    (h : st.UserID = u) : OwnKeys (m.insert u st) := by
  intro v st' hl
  by_cases hv : v = u
  · subst hv
    rw [Finmap.lookup_insert] at hl
    rw [← Option.some.inj hl]
    exact h
  · rw [Finmap.lookup_insert_of_ne _ hv] at hl
    exact hm v st' hl

theorem OwnKeys_erase {m : Store} (hm : OwnKeys m) (u : UserID) : OwnKeys (m.erase u) := by
  intro v st' hl
  by_cases hv : v = u
  · subst hv
    rw [Finmap.lookup_erase] at hl
    exact Option.noConfusion hl
  · rw [Finmap.lookup_erase_ne hv] at hl
    exact hm v st' hl

/-- Method `fromSlice` stores every session under its own `UserID`. -/
theorem fromSlice_ownKeys (sts : List SpentTime) :
    ∀ m : Store, OwnKeys m → OwnKeys (SpentTimeInMemory.fromSlice m sts) := by
  induction sts with
  | nil => intro m hm; exact hm
  | cons st sts ih =>
    intro m hm
    exact ih (m.insert st.UserID st) (OwnKeys_insert hm st.UserID st rfl)

theorem restore_ownKeys {φ β : Type} (fs : FileSystem φ β) (json : JSON β)
    (backupFolder : String) (m : Store) (d : φ) (hm : OwnKeys m) :
    OwnKeys (SpentTimeInMemory.restore fs json backupFolder m d).2.1 := by
  unfold SpentTimeInMemory.restore
  simp only []
  split
  · split
    · exact hm
    · exact fromSlice_ownKeys _ m hm
  · split
    · exact hm
    · split
      · exact hm
      · exact fromSlice_ownKeys _ m hm

/-- Method `Modify` keeps the sessions under their own `UserID` when the
callback returns a session of the user it was called for. -/
theorem Modify_ownKeys {κ : Type} (m : Store) (u : UserID) (f : ModifySpentTimeFunc κ)
    (k : κ) (hm : OwnKeys m)
    (hf : ∀ st' : SpentTime, (f (m.lookup u) k).1.1 = some st' → st'.UserID = u) :
    OwnKeys (SpentTimeInMemory.Modify m u f k).1.2 := by
  have hr : SpentTimeInMemory.Modify m u f k =
      match (f (m.lookup u) k).1.1 with
      | none => (((f (m.lookup u) k).1.2, m.erase u), (f (m.lookup u) k).2)
      | some spentTime => (((f (m.lookup u) k).1.2, m.insert u spentTime), (f (m.lookup u) k).2) := by
    unfold SpentTimeInMemory.Modify
    cases m.lookup u <;> rfl
  rw [hr]
  cases hres : (f (m.lookup u) k).1.1 with
  | none => exact OwnKeys_erase hm u
  | some st' => exact OwnKeys_insert hm u st' (hf st' hres)

theorem flush_ownKeys {σ : Type} (s : Service σ) (u : UserID) (m : Store) (db : σ)
    (hm : OwnKeys m) :
    OwnKeys (SpentTimeInMemory.Modify m u (ifNotEmpty s.toHistory) db).1.2 := by
  apply Modify_ownKeys m u _ db hm
  intro st' h
  cases hst : m.lookup u with
  | none =>
    rw [hst] at h
    exact Option.noConfusion h
  | some st =>
    rw [hst] at h
    simp only [ifNotEmpty, Service.toHistory] at h
    split at h
    · rw [← Option.some.inj h]
      exact hm u st hst
    · exact Option.noConfusion h

theorem closeFlush_ownKeys {σ : Type} (s : Service σ) (u : UserID) (pid : PlanningID)
    (m : Store) (db : σ) (hm : OwnKeys m) :
    OwnKeys (SpentTimeInMemory.Modify m u (ifNotEmpty (ifPlanningID pid s.toHistory)) db).1.2 := by
  cases hst : m.lookup u with
  | none =>
    rw [closeFlush_no_session s u pid m db hst]
    exact hm
  | some st =>
    by_cases hp : st.PlanningID = pid
    · rw [closeFlush_match s u pid m db st hst hp]
      exact flush_ownKeys s u m db hm
    · rw [closeFlush_other s u pid m db st hst hp]
      exact hm

theorem AddSpentTime_ownKeys {σ : Type} (s : Service σ) (now : Int)
    (report : SpentTimeReport) (m : Store) (db : σ) (hm : OwnKeys m) :
    OwnKeys (s.AddSpentTime now report m db).2.1 := by
  cases hst : m.lookup report.UserID with
  | none =>
    rw [AddSpentTime_no_session s now report m db hst]
    exact hm
  | some st =>
    rcases AddSpentTime_outcome s now report m db st hst with h | h
    · rw [h.2]
      exact hm
    · rw [h.2.2]
      exact OwnKeys_insert hm report.UserID _ (hm report.UserID st hst)

theorem SetActive_ownKeys {σ : Type} (s : Service σ) (a : NewActivePlanning)
    (m : Store) (db : σ) (hm : OwnKeys m) :
    OwnKeys (s.SetActive a m db).2.1 := by
  have hflush := flush_ownKeys s a.UserID m db hm
  unfold Service.SetActive
  simp only [SpentTimeInMemory.NewSpentTime]
  split
  · exact hflush
  · split
    · exact hflush
    · split
      · exact hflush
      · split
        · exact hflush
        · split
          · exact hflush
          · exact OwnKeys_insert hflush a.UserID _ rfl

theorem ClosePlanning_ownKeys {σ : Type} (s : Service σ) (userID : UserID)
    (report : PlanningReport) (m : Store) (db : σ) (hm : OwnKeys m) :
    OwnKeys (s.ClosePlanning userID report m db).2.1 := by
  have hflush := closeFlush_ownKeys s userID report.PlanningID m db hm
  unfold Service.ClosePlanning
  simp only []
  split
  · exact hflush
  · split <;> exact hflush

theorem SpentTime_ownKeys {σ : Type} (s : Service σ) (uid : UserID) (from_ to_ : Int)
    (m : Store) (db : σ) (hm : OwnKeys m) :
    OwnKeys (s.SpentTime uid from_ to_ m db).2.1 := by
  unfold Service.SpentTime
  simp only [spentTime_read]
  split <;> exact hm

theorem getAndDelete_ownKeys (m : Store) (userID : UserID) (hm : OwnKeys m) :
    OwnKeys (SpentTimeInMemory.getAndDelete m userID).2 := by
  unfold SpentTimeInMemory.getAndDelete
  split
  · exact OwnKeys_erase hm userID
  · exact hm

/-- Every map of sessions that the program builds holds each session under
its own `UserID`. -/
theorem Reachable_ownKeys {σ : Type} (s : Service σ) (m : Store) (h : Reachable s m) :
    OwnKeys m := by
  induction h with
  | make => exact OwnKeys_empty
  | fromSlice m sts _ ih => exact fromSlice_ownKeys sts m ih
  | restore fs json backupFolder m d _ ih => exact restore_ownKeys fs json backupFolder m d ih
  | newSpentTime m st _ ih => exact OwnKeys_insert ih st.UserID st rfl
  | getAndDelete m userID _ ih => exact getAndDelete_ownKeys m userID ih
  | addSpentTime now report m db _ ih => exact AddSpentTime_ownKeys s now report m db ih
  | setActive a m db _ ih => exact SetActive_ownKeys s a m db ih
  | closePlanning userID report m db _ ih => exact ClosePlanning_ownKeys s userID report m db ih
  | spentTime uid from_ to_ m db _ ih => exact SpentTime_ownKeys s uid from_ to_ m db ih

/-- The map `twoStore` is built by two calls of `NewSpentTime` on the empty
map. -/
theorem twoStore_reachable : Reachable testService twoStore :=
  Reachable.newSpentTime _ otherSession (Reachable.newSpentTime _ testSession Reachable.make)

/-! ## Theorems about `Service.AddSpentTime` -/

/-- C1 (clamping law).  When `AddSpentTime` accepts a report `r` (returns
`nil`) for the session `st`, the session is stored with `SpentOnline` increased
(by the Go addition) by exactly `min r.Spent (r.Time - st.Last)`, the
difference being the Go `int64` one; that number is at most the exact
difference `r.Time - st.Last`, and it is the exact minimum whenever the
difference fits in an `int64`. -/
theorem AddSpentTime_clamping_law {σ : Type} (s : Service σ) (now : Int)
    (r : SpentTimeReport) (m : Store) (db : σ) (st : SpentTime)
    (hst : m.lookup r.UserID = some st)
    (hacc : (s.AddSpentTime now r m db).1 = none) :
    (s.AddSpentTime now r m db).2.1.lookup r.UserID =
        some { st with
               Last := r.Time,
               SpentOnline := add64 st.SpentOnline (min r.Spent (sub64 r.Time st.Last)) } ∧
      min r.Spent (sub64 r.Time st.Last) ≤ sub64 r.Time st.Last ∧
      min r.Spent (sub64 r.Time st.Last) ≤ r.Time - st.Last ∧
      (IsInt64 (r.Time - st.Last) →
        min r.Spent (sub64 r.Time st.Last) = min r.Spent (r.Time - st.Last)) := by
  rcases AddSpentTime_outcome s now r m db st hst with ⟨herr, _⟩ | ⟨_, hpass, hstore⟩
  · exact absurd hacc herr
  · obtain ⟨_, _, hord, _, _⟩ := hpass
    refine ⟨?_, min_le_right _ _, ?_, ?_⟩
    · rw [hstore, Finmap.lookup_insert]
    · have h1 : sub64 r.Time st.Last ≤ r.Time - st.Last :=
        wrap64_le_self (by omega)
      exact le_trans (min_le_right _ _) h1
    · intro hfit
      rw [sub64_exact hfit]

/-- Witness of C1: ten seconds claimed five seconds after the checkpoint are
credited as five. -/
theorem AddSpentTime_clamping_law_witness :
    (testService.AddSpentTime 25 testReport testStore okStorage).2.1.lookup 7 =
      some { testSession with Last := 20, SpentOnline := 20 } ∧
    min testReport.Spent (sub64 testReport.Time testSession.Last) = 5 := by
  have h := AddSpentTime_clamping_law testService 25 testReport testStore okStorage
    testSession (by decide) (by decide)
  exact ⟨h.1.trans (by decide), by decide⟩

/-- C2 (monotone checkpoint).  For a user with session `st`, every call leaves
a session whose `Last` is not below `st.Last`; an accepted report leaves
`Last = r.Time` with `st.Last ≤ r.Time`; a report with `r.Time < st.Last` is
rejected with an error and the store is unchanged. -/
theorem AddSpentTime_Last_monotone {σ : Type} (s : Service σ) (now : Int)
    (r : SpentTimeReport) (m : Store) (db : σ) (st : SpentTime)
    (hst : m.lookup r.UserID = some st) :
    (∃ st', (s.AddSpentTime now r m db).2.1.lookup r.UserID = some st' ∧
        st.Last ≤ st'.Last) ∧
      ((s.AddSpentTime now r m db).1 = none →
        ∃ st', (s.AddSpentTime now r m db).2.1.lookup r.UserID = some st' ∧
          st'.Last = r.Time ∧ st.Last ≤ r.Time) ∧
      (r.Time < st.Last →
        (s.AddSpentTime now r m db).1 ≠ none ∧ (s.AddSpentTime now r m db).2.1 = m) := by
  rcases AddSpentTime_outcome s now r m db st hst with ⟨herr, hsame⟩ | ⟨hnil, hpass, hstore⟩
  · refine ⟨⟨st, by rw [hsame, hst], le_refl _⟩, fun h => absurd h herr, fun _ => ⟨herr, hsame⟩⟩
  · obtain ⟨_, _, hord, _, _⟩ := hpass
    refine ⟨⟨_, by rw [hstore, Finmap.lookup_insert], hord⟩,
      fun _ => ⟨_, by rw [hstore, Finmap.lookup_insert], rfl, hord⟩, fun hlt => ?_⟩
    omega

/-- Witness of C2: the report of `TestAddSpentTimePlanningTimeLessThenLast`
(time 10 against a checkpoint of 15) is rejected and the store is unchanged. -/
theorem AddSpentTime_Last_monotone_witness :
    testStore.lookup 7 = some testSession ∧
      (testService.AddSpentTime 325 { testReport with Spent := 5, Time := 10 }
        testStore okStorage).1 ≠ none ∧
      (testService.AddSpentTime 325 { testReport with Spent := 5, Time := 10 }
        testStore okStorage).2.1 = testStore :=
  ⟨by decide,
    (AddSpentTime_Last_monotone testService 325 { testReport with Spent := 5, Time := 10 }
      testStore okStorage testSession (by decide)).2.2 (by decide)⟩

/-- C3 (atomic rejection).  Whenever `AddSpentTime` returns an error the
session store after the call is the store before it. -/
theorem AddSpentTime_error_store_unchanged {σ : Type} (s : Service σ) (now : Int)
    (r : SpentTimeReport) (m : Store) (db : σ)
    (herr : (s.AddSpentTime now r m db).1 ≠ none) :
    (s.AddSpentTime now r m db).2.1 = m := by
  cases hst : m.lookup r.UserID with
  | none => rw [AddSpentTime_no_session s now r m db hst]
  | some st =>
    rcases AddSpentTime_outcome s now r m db st hst with ⟨_, hsame⟩ | ⟨hnil, _, _⟩
    · exact hsame
    · exact absurd hnil herr

/-- Witness of C3: the report of `TestAddSpentTimePlanningTooOldOnline`, 36
seconds after the planning was created, is rejected and the store is kept. -/
theorem AddSpentTime_error_store_unchanged_witness :
    (testService.AddSpentTime 40 { testReport with Time := 36 } testStore okStorage).1 ≠ none ∧
      (testService.AddSpentTime 40 { testReport with Time := 36 } testStore okStorage).2.1
        = testStore :=
  ⟨by decide,
    AddSpentTime_error_store_unchanged testService 40 { testReport with Time := 36 }
      testStore okStorage (by decide)⟩

/-- C4 (online acceptance).  A report that passes the clock, identity,
ordering, sign and staleness checks against the stored session `st`, at a
clock with `now - st.Last ≤ 300` (Go difference), makes `AddSpentTime` return
`nil`, leave the collaborator state as it was (no history interval is
written), and store `st` with `Last = r.Time` and
`SpentOnline = st.SpentOnline + min r.Spent (r.Time - st.Last)` (Go
arithmetic), the other fields and the other users unchanged. -/
theorem AddSpentTime_online {σ : Type} (s : Service σ) (now : Int)
    (r : SpentTimeReport) (m : Store) (db : σ) (st : SpentTime)
    (hst : m.lookup r.UserID = some st)
    (hclock : st.Last ≤ now ∧ st.Started ≤ now)
    (hid : st.PlanningID = r.PlanningID)
    (hord : st.Last ≤ r.Time)
    (hsign : 0 ≤ r.Spent)
    (hstale : s.isOutdated r.Time st.PlanningCreatedAt st.Last = false)
    (honline : sub64 now st.Last ≤ 300) :
    s.AddSpentTime now r m db =
      (none,
        m.insert r.UserID
          { UserID := st.UserID, PlanningID := st.PlanningID,
            PlanningCreatedAt := st.PlanningCreatedAt, Started := st.Started,
            Last := r.Time,
            SpentOnline := add64 st.SpentOnline (min r.Spent (sub64 r.Time st.Last)) },
        db) := by
  have hc := checkReport_pass s now st r hclock hid hord hsign hstale
  have hnoff : ¬ sub64 now st.Last > fiveMinutesInSeconds := by
    unfold fiveMinutesInSeconds
    omega
  rw [if_neg hnoff] at hc
  rw [AddSpentTime_session s now r m db st hst, hc]
  simp

/-- Witness of C4: the scenario of `TestAddSpentTimePlanningOnline` (session
with checkpoint 15 and 10 seconds spent, report of 5 seconds at time 20,
clock 25). -/
theorem AddSpentTime_online_witness :
    testService.AddSpentTime 25 { testReport with Spent := 5 }
        ((∅ : Store).insert 7 { testSession with SpentOnline := 10 }) okStorage =
      (none,
        ((∅ : Store).insert 7 { testSession with SpentOnline := 10 }).insert 7
          { testSession with Last := 20, SpentOnline := 15 },
        okStorage) :=
  AddSpentTime_online testService 25 { testReport with Spent := 5 }
    ((∅ : Store).insert 7 { testSession with SpentOnline := 10 }) okStorage
    { testSession with SpentOnline := 10 }
    (by decide) (by decide) (by decide) (by decide) (by decide) (by decide) (by decide)

/-- C5 (offline classification).  A report that passes the five checks at a
clock with `now - st.Last > 300` (Go difference), when the collaborator
accepts the write, makes `AddSpentTime` call the collaborator once, with the
interval `{PlanningID = r.PlanningID, Spent = c, StartedAt = r.Time - c,
EndedAt = r.Time, Status = Offline}` where `c = min r.Spent (r.Time - st.Last)`,
return `nil`, and store `st` advanced to `Last = r.Time` and
`SpentOnline = st.SpentOnline + c`. -/
theorem AddSpentTime_offline {σ : Type} (s : Service σ) (now : Int)
    (r : SpentTimeReport) (m : Store) (db : σ) (st : SpentTime)
    (hst : m.lookup r.UserID = some st)
    (hclock : st.Last ≤ now ∧ st.Started ≤ now)
    (hid : st.PlanningID = r.PlanningID)
    (hord : st.Last ≤ r.Time)
    (hsign : 0 ≤ r.Spent)
    (hstale : s.isOutdated r.Time st.PlanningCreatedAt st.Last = false)
    (hoffline : sub64 now st.Last > 300)
    (hsave : (s.planningStorage.AddSpentTime
        { PlanningID := r.PlanningID
          Spent := min r.Spent (sub64 r.Time st.Last)
          StartedAt := sub64 r.Time (min r.Spent (sub64 r.Time st.Last))
          EndedAt := r.Time
          Status := SpentTimeStatus.Offline } db).1 = none) :
    s.AddSpentTime now r m db =
      (none,
        m.insert r.UserID
          { UserID := st.UserID, PlanningID := st.PlanningID,
            PlanningCreatedAt := st.PlanningCreatedAt, Started := st.Started,
            Last := r.Time,
            SpentOnline := add64 st.SpentOnline (min r.Spent (sub64 r.Time st.Last)) },
        (s.planningStorage.AddSpentTime
          { PlanningID := r.PlanningID
            Spent := min r.Spent (sub64 r.Time st.Last)
            StartedAt := sub64 r.Time (min r.Spent (sub64 r.Time st.Last))
            EndedAt := r.Time
            Status := SpentTimeStatus.Offline } db).2) := by
  have hc := checkReport_pass s now st r hclock hid hord hsign hstale
  have hoff : sub64 now st.Last > fiveMinutesInSeconds := by
    unfold fiveMinutesInSeconds
    omega
  rw [if_pos hoff] at hc
  rw [AddSpentTime_session s now r m db st hst, hc]
  simp only [reportToHistory, if_true]
  rw [hsave]

/-- Witness of C5: the scenario of `TestAddSpentTimePlanningOfflineTooMuchTime`
(clock 325): the recording collaborator holds the one interval
`{3, 5, 15, 20, Offline}` and the session is advanced to 20 / 20. -/
theorem AddSpentTime_offline_witness :
    testService.AddSpentTime 325 testReport testStore okStorage =
      (none,
        testStore.insert 7 { testSession with Last := 20, SpentOnline := 20 },
        { okStorage with
          histories := [{ PlanningID := 3, Spent := 5, StartedAt := 15, EndedAt := 20,
                          Status := SpentTimeStatus.Offline }] }) :=
  AddSpentTime_offline testService 325 testReport testStore okStorage testSession
    (by decide) (by decide) (by decide) (by decide) (by decide) (by decide) (by decide)
    (by decide)

/-- C7 (failed Offline write).  When a report passes the five checks, is
classified Offline (`now - st.Last > 300`) and the collaborator fails to
persist its interval with an error `e`, `AddSpentTime` returns an error and
the session is not advanced: the store is the one before the call, so the
user's session is still `st`, with its `Last` and `SpentOnline`. -/
theorem AddSpentTime_offline_save_fails {σ : Type} (s : Service σ) (now : Int)
    (r : SpentTimeReport) (m : Store) (db : σ) (st : SpentTime) (e : Err)
    (hst : m.lookup r.UserID = some st)
    (hclock : st.Last ≤ now ∧ st.Started ≤ now)
    (hid : st.PlanningID = r.PlanningID)
    (hord : st.Last ≤ r.Time)
    (hsign : 0 ≤ r.Spent)
    (hstale : s.isOutdated r.Time st.PlanningCreatedAt st.Last = false)
    (hoffline : sub64 now st.Last > 300)
    (hsave : (s.planningStorage.AddSpentTime
        { PlanningID := r.PlanningID
          Spent := min r.Spent (sub64 r.Time st.Last)
          StartedAt := sub64 r.Time (min r.Spent (sub64 r.Time st.Last))
          EndedAt := r.Time
          Status := SpentTimeStatus.Offline } db).1 = some e) :
    (s.AddSpentTime now r m db).1 ≠ none ∧
      (s.AddSpentTime now r m db).2.1 = m ∧
      (s.AddSpentTime now r m db).2.1.lookup r.UserID = some st := by
  have hc := checkReport_pass s now st r hclock hid hord hsign hstale
  have hoff : sub64 now st.Last > fiveMinutesInSeconds := by
    unfold fiveMinutesInSeconds
    omega
  rw [if_pos hoff] at hc
  rw [AddSpentTime_session s now r m db st hst, hc]
  simp only [reportToHistory, if_true]
  rw [hsave]
  exact ⟨by simp, rfl, hst⟩

/-- Witness of C7: the Offline scenario against a collaborator that fails. -/
theorem AddSpentTime_offline_save_fails_witness :
    (testService.AddSpentTime 325 testReport testStore failingStorage).1 ≠ none ∧
      (testService.AddSpentTime 325 testReport testStore failingStorage).2.1 = testStore ∧
      (testService.AddSpentTime 325 testReport testStore failingStorage).2.1.lookup 7
        = some testSession :=
  AddSpentTime_offline_save_fails testService 325 testReport testStore failingStorage
    testSession (Err.collaborator 1)
    (by decide) (by decide) (by decide) (by decide) (by decide) (by decide) (by decide)
    (by decide)

/-- C8 (staleness).  For a report that passes the clock, identity, ordering
and sign checks against the stored session `st`, the cause of the error of
`AddSpentTime` is `ErrPlanningOutdated` exactly when
`r.Time - st.PlanningCreatedAt > maxPlanningAge` or
(`st.Last > 0` and `r.Time - st.Last > maxFromLastUpdate`), with Go
differences and strict comparisons; in that case the store and the
collaborator are left as they were. -/
theorem AddSpentTime_staleness {σ : Type} (s : Service σ) (now : Int)
    (r : SpentTimeReport) (m : Store) (db : σ) (st : SpentTime)
    (hst : m.lookup r.UserID = some st)
    (hclock : st.Last ≤ now ∧ st.Started ≤ now)
    (hid : st.PlanningID = r.PlanningID)
    (hord : st.Last ≤ r.Time)
    (hsign : 0 ≤ r.Spent) :
    (Cause (s.AddSpentTime now r m db).1 = some Err.ErrPlanningOutdated ↔
        (sub64 r.Time st.PlanningCreatedAt > s.maxPlanningAge ∨
          (st.Last > 0 ∧ sub64 r.Time st.Last > s.maxFromLastUpdate))) ∧
      ((sub64 r.Time st.PlanningCreatedAt > s.maxPlanningAge ∨
          (st.Last > 0 ∧ sub64 r.Time st.Last > s.maxFromLastUpdate)) →
        (s.AddSpentTime now r m db).2.1 = m ∧ (s.AddSpentTime now r m db).2.2 = db) := by
  rw [← isOutdated_iff]
  cases hstale : s.isOutdated r.Time st.PlanningCreatedAt st.Last with
  | true =>
    have hc := checkReport_stale s now st r hclock hid hord hsign hstale
    have hr := AddSpentTime_invalid s now r m db st Err.ErrPlanningOutdated hst
      (by rw [hc]) (by decide)
    rw [hr]
    simp [Cause, Err.Cause]
  | false =>
    refine ⟨⟨fun h => ?_, fun h => by simp at h⟩, fun h => by simp at h⟩
    exfalso
    have hc := checkReport_pass s now st r hclock hid hord hsign hstale
    rw [AddSpentTime_session s now r m db st hst, hc] at h
    by_cases hoff : sub64 now st.Last > fiveMinutesInSeconds
    · simp only [if_pos hoff, if_true] at h
      cases hw : (s.planningStorage.AddSpentTime
          (reportToHistory
            { UserID := r.UserID, PlanningID := r.PlanningID,
              Spent := min r.Spent (sub64 r.Time st.Last), Time := r.Time }
            SpentTimeStatus.Offline) db).1 with
      | none => rw [hw] at h; simp [Cause] at h
      | some e => rw [hw] at h; simp [Cause, Err.Cause] at h
    · simp [if_neg hoff, Cause] at h

/-- Witness of C8: with limits 35 and 10, a report 11 seconds after the
checkpoint (`TestAddSpentTimePlanningTooLongAfterLastUpdateOnline`) is
rejected with cause `ErrPlanningOutdated`, and a report exactly 10 seconds
after it is not. -/
theorem AddSpentTime_staleness_witness :
    Cause (testService.AddSpentTime 30 { testReport with Time := 26 } testStore okStorage).1
        = some Err.ErrPlanningOutdated ∧
      Cause (testService.AddSpentTime 30 { testReport with Time := 25 } testStore okStorage).1
        ≠ some Err.ErrPlanningOutdated :=
  ⟨(AddSpentTime_staleness testService 30 { testReport with Time := 26 } testStore okStorage
      testSession (by decide) (by decide) (by decide) (by decide) (by decide)).1.mpr
      (by decide),
    fun h => absurd
      ((AddSpentTime_staleness testService 30 { testReport with Time := 25 } testStore
        okStorage testSession (by decide) (by decide) (by decide) (by decide)
        (by decide)).1.mp h)
      (by decide)⟩

/-- C9, as the code has it.  A report with negative `Spent` is rejected by
`AddSpentTime` whatever the store holds, and the store and the collaborator
are left as they were; the cause of the error is `ErrNegativeSpentTime` when
the user has a session and the report passes the clock, identity and ordering
checks, which come before the sign check. -/
theorem AddSpentTime_negative_spent {σ : Type} (s : Service σ) (now : Int)
    (r : SpentTimeReport) (m : Store) (db : σ)
    (hneg : r.Spent < 0) :
    (s.AddSpentTime now r m db).1 ≠ none ∧
      (s.AddSpentTime now r m db).2.1 = m ∧
      (s.AddSpentTime now r m db).2.2 = db ∧
      (∀ st : SpentTime, m.lookup r.UserID = some st →
        (st.Last ≤ now ∧ st.Started ≤ now) → st.PlanningID = r.PlanningID →
        st.Last ≤ r.Time →
        Cause (s.AddSpentTime now r m db).1 = some Err.ErrNegativeSpentTime) := by
  cases hst : m.lookup r.UserID with
  | none =>
    rw [AddSpentTime_no_session s now r m db hst]
    exact ⟨by simp, rfl, rfl, fun st h => by simp at h⟩
  | some st =>
    cases hc : (s.checkReport now st r).2 with
    | none =>
      have hp := checkReport_accepts s now st r (Or.inl hc)
      omega
    | some e =>
      have he : e ≠ Err.errOfflineSpentTime := by
        intro h
        rw [h] at hc
        have hp := checkReport_accepts s now st r (Or.inr hc)
        omega
      rw [AddSpentTime_invalid s now r m db st e hst hc he]
      refine ⟨by simp, rfl, rfl, fun st' h hclock hid hord => ?_⟩
      have hst' : st' = st := (Option.some.inj h).symm
      subst hst'
      rw [checkReport_sign s now st' r hclock hid hord hneg] at hc
      have he' : e = Err.ErrNegativeSpentTime := (Option.some.inj hc).symm
      subst he'
      rfl

/-- Witness of C9 as amended: the report of
`TestAddSpentTimePlanningSpentNegative` (minus five seconds at time 20). -/
theorem AddSpentTime_negative_spent_witness :
    (testService.AddSpentTime 325 { testReport with Spent := -5 } testStore okStorage).1 ≠ none ∧
      (testService.AddSpentTime 325 { testReport with Spent := -5 } testStore okStorage).2.1
        = testStore ∧
      Cause (testService.AddSpentTime 325 { testReport with Spent := -5 } testStore okStorage).1
        = some Err.ErrNegativeSpentTime :=
  have h := AddSpentTime_negative_spent testService 325 { testReport with Spent := -5 }
    testStore okStorage (by decide)
  ⟨h.1, h.2.1, h.2.2.2 testSession (by decide) (by decide) (by decide) (by decide)⟩

/-- Counterexample to C9 as stated: a report of minus five seconds whose time
(10) is before the checkpoint (15) is rejected with cause `ErrOutdatedReport`,
and one that names another planning with cause `ErrInvalidPlanningID`; neither
cause is `ErrNegativeSpentTime`. -/
theorem AddSpentTime_negative_spent_other_cause :
    ({ testReport with Spent := -5, Time := 10 } : SpentTimeReport).Spent < 0 ∧
      Cause (testService.AddSpentTime 25 { testReport with Spent := -5, Time := 10 }
        testStore okStorage).1 = some Err.ErrOutdatedReport ∧
      Cause (testService.AddSpentTime 25 { testReport with Spent := -5, Time := 10 }
        testStore okStorage).1 ≠ some Err.ErrNegativeSpentTime ∧
      Cause (testService.AddSpentTime 25 { testReport with PlanningID := 2, Spent := -5 }
        testStore okStorage).1 = some Err.ErrInvalidPlanningID := by
  decide

/-- C10 (identity check).  At a sane clock (`now ≥ st.Last` and
`now ≥ st.Started`), a report that names a planning other than the one of the
stored session `st` makes `AddSpentTime` fail with cause
`ErrInvalidPlanningID`, whatever its `Time` and `Spent` are, and the store and
the collaborator are left as they were. -/
theorem AddSpentTime_identity {σ : Type} (s : Service σ) (now : Int)
    (r : SpentTimeReport) (m : Store) (db : σ) (st : SpentTime)
    (hst : m.lookup r.UserID = some st)
    (hclock : st.Last ≤ now ∧ st.Started ≤ now)
    (hid : r.PlanningID ≠ st.PlanningID) :
    Cause (s.AddSpentTime now r m db).1 = some Err.ErrInvalidPlanningID ∧
      (s.AddSpentTime now r m db).2.1 = m ∧
      (s.AddSpentTime now r m db).2.2 = db := by
  have hc := checkReport_identity s now st r hclock (fun h => hid h.symm)
  rw [AddSpentTime_invalid s now r m db st Err.ErrInvalidPlanningID hst
    (by rw [hc]) (by decide)]
  exact ⟨rfl, rfl, rfl⟩

/-- Witness of C10: the scenario of `TestAddSpentTimeInvalidPlanningID`, with
a report that also has a negative `Spent` and a `Time` before the checkpoint. -/
theorem AddSpentTime_identity_witness :
    Cause (testService.AddSpentTime 25
        { UserID := 7, PlanningID := 2, Spent := -3, Time := 0 } testStore okStorage).1
        = some Err.ErrInvalidPlanningID ∧
      (testService.AddSpentTime 25
        { UserID := 7, PlanningID := 2, Spent := -3, Time := 0 } testStore okStorage).2.1
        = testStore ∧
      (testService.AddSpentTime 25
        { UserID := 7, PlanningID := 2, Spent := -3, Time := 0 } testStore okStorage).2.2
        = okStorage :=
  AddSpentTime_identity testService 25
    { UserID := 7, PlanningID := 2, Spent := -3, Time := 0 } testStore okStorage testSession
    (by decide) (by decide) (by decide)

/-- C6, at the failing input.  In the Offline scenario the collaborator
refuses the write with its own error `collaborator 1`; `AddSpentTime` returns
`errOfflineSpentTime` wrapped, the collaborator's error being only an argument
of the message, so the cause of the returned error is the sentinel and not the
collaborator's error. -/
theorem AddSpentTime_offline_save_error_cause :
    (testService.planningStorage.AddSpentTime
        { PlanningID := 3, Spent := 5, StartedAt := 15, EndedAt := 20,
          Status := SpentTimeStatus.Offline } failingStorage).1
        = some (Err.collaborator 1) ∧
      (testService.AddSpentTime 325 testReport testStore failingStorage).1
        = some (Err.wrapf Err.errOfflineSpentTime "fail to save spenttime history: %+v"
            (Err.collaborator 1)) ∧
      Cause (testService.AddSpentTime 325 testReport testStore failingStorage).1
        = some Err.errOfflineSpentTime ∧
      Cause (testService.AddSpentTime 325 testReport testStore failingStorage).1
        ≠ some (Err.collaborator 1) := by
  decide


/-- C11 (clock sanity).  When the clock is behind the stored session `st`
(`now < st.Last` or `now < st.Started`), `AddSpentTime` fails for every report
with the internal error of `checkReport`, wrapped: its cause is the fresh
`Errorf` value, which is none of `ErrInvalidPlanningID`, `ErrOutdatedReport`,
`ErrNegativeSpentTime`, `ErrPlanningOutdated`, `ErrNoActivePlanning`; the
collaborator is not called and the store is the one before the call. -/
theorem AddSpentTime_clock_sanity {σ : Type} (s : Service σ) (now : Int)
    (r : SpentTimeReport) (m : Store) (db : σ) (st : SpentTime)
    (hst : m.lookup r.UserID = some st)
    (hclock : now < st.Last ∨ now < st.Started) :
    s.AddSpentTime now r m db =
        (some (Err.wrap (Err.invalidSpentTime now st) "invalid report"), m, db) ∧
      Cause (s.AddSpentTime now r m db).1 = some (Err.invalidSpentTime now st) ∧
      Cause (s.AddSpentTime now r m db).1 ≠ some Err.ErrInvalidPlanningID ∧
      Cause (s.AddSpentTime now r m db).1 ≠ some Err.ErrOutdatedReport ∧
      Cause (s.AddSpentTime now r m db).1 ≠ some Err.ErrNegativeSpentTime ∧
      Cause (s.AddSpentTime now r m db).1 ≠ some Err.ErrPlanningOutdated ∧
      Cause (s.AddSpentTime now r m db).1 ≠ some Err.ErrNoActivePlanning ∧
      (s.AddSpentTime now r m db).2.1.lookup r.UserID = some st := by
  have hc := checkReport_clock s now st r hclock
  have hr := AddSpentTime_invalid s now r m db st (Err.invalidSpentTime now st) hst
    (by rw [hc]) (by simp)
  rw [hr]
  refine ⟨rfl, rfl, ?_, ?_, ?_, ?_, ?_, hst⟩ <;> simp [Cause, Err.Cause]

/-- Witness of C11: the test session (checkpoint 15) at clock 10, with a
report that is valid in every other respect. -/
theorem AddSpentTime_clock_sanity_witness :
    testService.AddSpentTime 10 { testReport with Spent := 5 } testStore okStorage =
      (some (Err.wrap (Err.invalidSpentTime 10 testSession) "invalid report"),
        testStore, okStorage) :=
  (AddSpentTime_clock_sanity testService 10 { testReport with Spent := 5 } testStore
    okStorage testSession (by decide) (by decide)).1

/-- C12 (no active planning).  When the store holds no session for
`report.UserID`, `AddSpentTime` returns `ErrNoActivePlanning` itself, not
wrapped, the collaborator is not called, the store is the one before the call
and still holds no session for that user. -/
theorem AddSpentTime_no_active_planning {σ : Type} (s : Service σ) (now : Int)
    (r : SpentTimeReport) (m : Store) (db : σ)
    (hnone : m.lookup r.UserID = none) :
    s.AddSpentTime now r m db = (some Err.ErrNoActivePlanning, m, db) ∧
      (s.AddSpentTime now r m db).2.1.lookup r.UserID = none := by
  rw [AddSpentTime_no_session s now r m db hnone]
  exact ⟨rfl, hnone⟩

/-- Witness of C12: the report of `TestAddSpentTimeNoActivePlanning` (user 1)
against a store that holds a session of user 7 only. -/
theorem AddSpentTime_no_active_planning_witness :
    testService.AddSpentTime 25 { UserID := 1, PlanningID := 2, Spent := 0, Time := 0 }
        testStore okStorage = (some Err.ErrNoActivePlanning, testStore, okStorage) :=
  (AddSpentTime_no_active_planning testService 25
    { UserID := 1, PlanningID := 2, Spent := 0, Time := 0 } testStore okStorage
    (by decide)).1

/-- C14 (postcondition of `Modify`).  `Modify m u f` applies `f` once, to the
current entry of `u` (`none`, the `nil` marker, when `u` has no entry, which
is not `some` zero-value session): the state of the closure after the call
is the one after that application; the error returned is the error of `f`;
the entry of `u` afterwards is the session `f` returned, or is absent when `f`
returned `nil`, whether or not `f` returned an error; the entry of every
other user is unchanged. -/
theorem Modify_postcondition {κ : Type} (m : Store) (u : UserID)
    (f : ModifySpentTimeFunc κ) (k : κ) :
    (SpentTimeInMemory.Modify m u f k).2 = (f (m.lookup u) k).2 ∧
      (SpentTimeInMemory.Modify m u f k).1.1 = (f (m.lookup u) k).1.2 ∧
      (SpentTimeInMemory.Modify m u f k).1.2.lookup u = (f (m.lookup u) k).1.1 ∧
      (∀ x : UserID, x ≠ u →
        (SpentTimeInMemory.Modify m u f k).1.2.lookup x = m.lookup x) ∧
      (m.lookup u = none →
        (SpentTimeInMemory.Modify m u f k).1.1 = (f none k).1.2 ∧
        (SpentTimeInMemory.Modify m u f k).2 = (f none k).2) := by
  have hcall : (match m.lookup u with
      | some st => f (some st) k
      | none => f none k) = f (m.lookup u) k := by
    cases m.lookup u <;> rfl
  unfold SpentTimeInMemory.Modify
  simp only [hcall]
  cases hres : (f (m.lookup u) k).1.1 with
  | none =>
    refine ⟨rfl, rfl, ?_, ?_, ?_⟩
    · exact Finmap.lookup_erase u m
    · intro x hx
      exact Finmap.lookup_erase_ne hx
    · intro hz
      rw [hz]
      exact ⟨rfl, rfl⟩
  | some st' =>
    refine ⟨rfl, rfl, ?_, ?_, ?_⟩
    · exact Finmap.lookup_insert m
    · intro x hx
      exact Finmap.lookup_insert_of_ne m hx
    · intro hz
      rw [hz]
      exact ⟨rfl, rfl⟩

/-- Witness of C14, after `TestModifyDeleteFromStorageWithErr` and
`TestModifyStorageWithErr`: a callback that returns `nil` and an error deletes
the entry, one that returns a changed session and an error stores it, and the
error comes back in both cases. -/
theorem Modify_postcondition_witness :
    (SpentTimeInMemory.Modify testStore 7
        (fun _ (u : Unit) => ((none, some (Err.collaborator 1)), u)) ()).1.2.lookup 7 = none ∧
      (SpentTimeInMemory.Modify testStore 7
        (fun _ (u : Unit) => ((none, some (Err.collaborator 1)), u)) ()).1.1
          = some (Err.collaborator 1) ∧
      (SpentTimeInMemory.Modify testStore 7
        (fun _ (u : Unit) => ((some { testSession with Last := 7 }, some (Err.collaborator 1)), u))
        ()).1.2.lookup 7 = some { testSession with Last := 7 } :=
  ⟨(Modify_postcondition testStore 7
      (fun _ (u : Unit) => ((none, some (Err.collaborator 1)), u)) ()).2.2.1,
    (Modify_postcondition testStore 7
      (fun _ (u : Unit) => ((none, some (Err.collaborator 1)), u)) ()).2.1,
    (Modify_postcondition testStore 7
      (fun _ (u : Unit) => ((some { testSession with Last := 7 }, some (Err.collaborator 1)), u))
      ()).2.2.1⟩

/-- C15 (`NewSpentTime`).  `NewSpentTime st` returns `nil`, leaves `st` as the
entry of `st.UserID` whatever was stored for that user before, and leaves the
entry of every other user unchanged; the store, being a map, has at most one
entry for each user. -/
theorem NewSpentTime_postcondition (m : Store) (st : SpentTime) :
    (SpentTimeInMemory.NewSpentTime m st).1 = none ∧
      (SpentTimeInMemory.NewSpentTime m st).2.lookup st.UserID = some st ∧
      (∀ x : UserID, x ≠ st.UserID →
        (SpentTimeInMemory.NewSpentTime m st).2.lookup x = m.lookup x) ∧
      (SpentTimeInMemory.NewSpentTime m st).2.entries.NodupKeys := by
  refine ⟨rfl, Finmap.lookup_insert m, ?_, (SpentTimeInMemory.NewSpentTime m st).2.nodupKeys⟩
  intro x hx
  exact Finmap.lookup_insert_of_ne m hx

/-- Witness of C15, after `TestNewSpentTimeRewrite`: a new session of user 7
replaces the stored one. -/
theorem NewSpentTime_postcondition_witness :
    (SpentTimeInMemory.NewSpentTime testStore
        { testSession with PlanningID := 9, SpentOnline := 0 }).2.lookup 7
      = some { testSession with PlanningID := 9, SpentOnline := 0 } :=
  (NewSpentTime_postcondition testStore
    { testSession with PlanningID := 9, SpentOnline := 0 }).2.1


/-! ## Theorems about `Service.SetActive` -/

/-- C18 (flush on activation).  For a user with a session `st`, a `SetActive`
call whose history write succeeds writes to the collaborator exactly the
interval `{PlanningID = st.PlanningID, Spent = st.SpentOnline,
StartedAt = st.Started, EndedAt = st.Last, Status = Online}` and deletes the
session, in its first step, whatever planning the request names; the call then
goes on as it does for a user without a session, so any session of the user
in the store afterwards is a brand-new one, and the other users are left as
they were. -/
theorem SetActive_flushes_session {σ : Type} (s : Service σ) (a : NewActivePlanning)
    (m : Store) (db : σ) (st : SpentTime)
    (hst : m.lookup a.UserID = some st)
    (hw : (s.planningStorage.AddSpentTime
        { PlanningID := st.PlanningID
          Spent := st.SpentOnline
          StartedAt := st.Started
          EndedAt := st.Last
          Status := SpentTimeStatus.Online } db).1 = none) :
    SpentTimeInMemory.Modify m a.UserID (ifNotEmpty s.toHistory) db =
        ((none, m.erase a.UserID),
          (s.planningStorage.AddSpentTime
            { PlanningID := st.PlanningID
              Spent := st.SpentOnline
              StartedAt := st.Started
              EndedAt := st.Last
              Status := SpentTimeStatus.Online } db).2) ∧
      s.SetActive a m db =
        s.SetActive a (m.erase a.UserID)
          (s.planningStorage.AddSpentTime
            { PlanningID := st.PlanningID
              Spent := st.SpentOnline
              StartedAt := st.Started
              EndedAt := st.Last
              Status := SpentTimeStatus.Online } db).2 ∧
      (∀ st' : SpentTime, (s.SetActive a m db).2.1.lookup a.UserID = some st' →
        st'.UserID = a.UserID ∧ st'.PlanningID = a.PlanningID ∧
          st'.Started = a.Time ∧ st'.Last = a.Time ∧ st'.SpentOnline = 0) ∧
      (∀ x : UserID, x ≠ a.UserID → (s.SetActive a m db).2.1.lookup x = m.lookup x) := by
  have hflush := flush_session_ok s a.UserID m db st hst hw
  have hnone : (m.erase a.UserID).lookup a.UserID = none := Finmap.lookup_erase _ _
  have hflush' := flush_no_session s a.UserID (m.erase a.UserID)
    (s.planningStorage.AddSpentTime (spentTimeToHistory st SpentTimeStatus.Online) db).2 hnone
  have herr : (SpentTimeInMemory.Modify m a.UserID (ifNotEmpty s.toHistory) db).1.1 = none := by
    rw [hflush]
  refine ⟨hflush, ?_, ?_, ?_⟩
  · unfold Service.SetActive
    rw [hflush]
    have h2 : SpentTimeInMemory.Modify (m.erase a.UserID) a.UserID (ifNotEmpty s.toHistory)
        (s.planningStorage.AddSpentTime
          { PlanningID := st.PlanningID
            Spent := st.SpentOnline
            StartedAt := st.Started
            EndedAt := st.Last
            Status := SpentTimeStatus.Online } db).2 =
        ((none, m.erase a.UserID),
          (s.planningStorage.AddSpentTime
            { PlanningID := st.PlanningID
              Spent := st.SpentOnline
              StartedAt := st.Started
              EndedAt := st.Last
              Status := SpentTimeStatus.Online } db).2) := hflush'
    rw [h2]
    rfl
  · intro st' hst'
    rcases SetActive_store s a m db herr with h | ⟨c, h⟩
    · rw [h, Finmap.lookup_erase] at hst'
      simp at hst'
    · rw [h, Finmap.lookup_insert] at hst'
      have := Option.some.inj hst'
      subst this
      exact ⟨rfl, rfl, rfl, rfl, rfl⟩
  · intro x hx
    rcases SetActive_store s a m db herr with h | ⟨c, h⟩
    · rw [h, Finmap.lookup_erase_ne hx]
    · rw [h, Finmap.lookup_insert_of_ne _ hx, Finmap.lookup_erase_ne hx]

/-- Witness of C18, after `TestSetActivePlanning`: user 7 activates again the
planning of the stored session; the recording collaborator holds the one
Online interval `{3, 15, 0, 15}` and the old session is gone. -/
theorem SetActive_flushes_session_witness :
    SpentTimeInMemory.Modify testStore 7 (ifNotEmpty testService.toHistory) okStorage =
        ((none, testStore.erase 7),
          { okStorage with
            histories := [{ PlanningID := 3, Spent := 15, StartedAt := 0, EndedAt := 15,
                            Status := SpentTimeStatus.Online }] }) ∧
      (testService.SetActive { UserID := 7, PlanningID := 3, Time := 40 } testStore
          okStorage).2.2.histories =
        [{ PlanningID := 3, Spent := 15, StartedAt := 0, EndedAt := 15,
           Status := SpentTimeStatus.Online }] :=
  ⟨(SetActive_flushes_session testService { UserID := 7, PlanningID := 3, Time := 40 }
      testStore okStorage testSession (by decide) (by decide)).1,
    by decide⟩

/-- C19 (out-of-order activation).  When the flush of `SetActive` returns no
error, the request names a planning, and the collaborator answers
`LastActivity` with the timestamp `t`: if `t > a.Time` then `SetActive` returns
`ErrOutdatedReport` itself, asks nothing more of the collaborator, and leaves
the user without a session, the session held before having been written to
history and deleted by the flush; if `t = a.Time` the request is not rejected
as outdated, and it is accepted when `PlanningCreatedAt` succeeds. -/
theorem SetActive_outdated {σ : Type} (s : Service σ) (a : NewActivePlanning)
    (m : Store) (db db2 : σ) (t : Int)
    (hpid : a.PlanningID ≠ 0)
    (hflush : (SpentTimeInMemory.Modify m a.UserID (ifNotEmpty s.toHistory) db).1.1 = none)
    (hla : s.planningStorage.LastActivity a.UserID
      (SpentTimeInMemory.Modify m a.UserID (ifNotEmpty s.toHistory) db).2 = ((t, none), db2)) :
    (a.Time < t →
        s.SetActive a m db = (some Err.ErrOutdatedReport, m.erase a.UserID, db2) ∧
        (s.SetActive a m db).2.1.lookup a.UserID = none) ∧
      (t = a.Time →
        (s.SetActive a m db).1 ≠ some Err.ErrOutdatedReport ∧
        ((s.planningStorage.PlanningCreatedAt a.PlanningID db2).1.2 = none →
          (s.SetActive a m db).1 = none)) ∧
      (∀ st : SpentTime, m.lookup a.UserID = some st →
        (s.planningStorage.AddSpentTime
          { PlanningID := st.PlanningID
            Spent := st.SpentOnline
            StartedAt := st.Started
            EndedAt := st.Last
            Status := SpentTimeStatus.Online } db).1 = none ∧
        (SpentTimeInMemory.Modify m a.UserID (ifNotEmpty s.toHistory) db).2 =
          (s.planningStorage.AddSpentTime
            { PlanningID := st.PlanningID
              Spent := st.SpentOnline
              StartedAt := st.Started
              EndedAt := st.Last
              Status := SpentTimeStatus.Online } db).2) := by
  have hstore := flush_ok_store s a.UserID m db hflush
  refine ⟨fun hgt => ?_, fun heq => ?_, fun st hst => ?_⟩
  · have hgt' : t > a.Time := hgt
    have hres : s.SetActive a m db = (some Err.ErrOutdatedReport, m.erase a.UserID, db2) := by
      simp [Service.SetActive, hflush, hstore, hpid, hla, hgt']
    rw [hres]
    exact ⟨rfl, Finmap.lookup_erase _ _⟩
  · have hngt : ¬ t > a.Time := by omega
    cases hca : (s.planningStorage.PlanningCreatedAt a.PlanningID db2).1.2 with
    | some e => simp [Service.SetActive, hflush, hstore, hpid, hla, hngt, hca]
    | none =>
      simp [Service.SetActive, hflush, hstore, hpid, hla, hngt, hca,
        SpentTimeInMemory.NewSpentTime]
  · cases hw : (s.planningStorage.AddSpentTime
        (spentTimeToHistory st SpentTimeStatus.Online) db).1 with
    | none =>
      refine ⟨hw, ?_⟩
      rw [flush_session_ok s a.UserID m db st hst hw]
      rfl
    | some e =>
      rw [flush_session_fail s a.UserID m db st e hst hw] at hflush
      simp at hflush

/-- Witness of C19, after `TestSetActivePlanningOutdatedReport`: last activity
10, request time 9; and the same request at time 10, which is accepted. -/
theorem SetActive_outdated_witness :
    (testService.SetActive { UserID := 7, PlanningID := 3, Time := 9 } testStore
          { okStorage with lastActivity := 10 } =
        (some Err.ErrOutdatedReport, testStore.erase 7,
          { okStorage with
            lastActivity := 10,
            histories := [{ PlanningID := 3, Spent := 15, StartedAt := 0, EndedAt := 15,
                            Status := SpentTimeStatus.Online }] })) ∧
      (testService.SetActive { UserID := 7, PlanningID := 3, Time := 10 } testStore
          { okStorage with lastActivity := 10 }).1 ≠ some Err.ErrOutdatedReport :=
  ⟨((SetActive_outdated testService { UserID := 7, PlanningID := 3, Time := 9 } testStore
      { okStorage with lastActivity := 10 }
      { okStorage with
        lastActivity := 10,
        histories := [{ PlanningID := 3, Spent := 15, StartedAt := 0, EndedAt := 15,
                        Status := SpentTimeStatus.Online }] }
      10 (by decide) (by decide) (by decide)).1 (by decide)).1,
    ((SetActive_outdated testService { UserID := 7, PlanningID := 3, Time := 10 } testStore
      { okStorage with lastActivity := 10 }
      { okStorage with
        lastActivity := 10,
        histories := [{ PlanningID := 3, Spent := 15, StartedAt := 0, EndedAt := 15,
                        Status := SpentTimeStatus.Online }] }
      10 (by decide) (by decide) (by decide)).2.1 (by decide)).1⟩

/-- C20 (successful activation).  When the request names a planning, the
flush (if any) returns no error, `LastActivity` succeeds with a timestamp
`t ≤ a.Time` and `PlanningCreatedAt` succeeds with `c`, `SetActive` returns
`nil` and the entry of `a.UserID` is exactly the session `{UserID = a.UserID,
PlanningID = a.PlanningID, PlanningCreatedAt = c, Started = a.Time,
Last = a.Time, SpentOnline = 0}`. -/
theorem SetActive_success {σ : Type} (s : Service σ) (a : NewActivePlanning)
    (m : Store) (db db2 db3 : σ) (t c : Int)
    (hpid : a.PlanningID ≠ 0)
    (hflush : (SpentTimeInMemory.Modify m a.UserID (ifNotEmpty s.toHistory) db).1.1 = none)
    (hla : s.planningStorage.LastActivity a.UserID
      (SpentTimeInMemory.Modify m a.UserID (ifNotEmpty s.toHistory) db).2 = ((t, none), db2))
    (hle : t ≤ a.Time)
    (hca : s.planningStorage.PlanningCreatedAt a.PlanningID db2 = ((c, none), db3)) :
    s.SetActive a m db =
        (none,
          (m.erase a.UserID).insert a.UserID
            { UserID := a.UserID, PlanningID := a.PlanningID, PlanningCreatedAt := c,
              Started := a.Time, Last := a.Time, SpentOnline := 0 },
          db3) ∧
      (s.SetActive a m db).2.1.lookup a.UserID =
        some { UserID := a.UserID, PlanningID := a.PlanningID, PlanningCreatedAt := c,
               Started := a.Time, Last := a.Time, SpentOnline := 0 } := by
  have hstore := flush_ok_store s a.UserID m db hflush
  have hngt : ¬ t > a.Time := by omega
  have hres : s.SetActive a m db =
      (none,
        (m.erase a.UserID).insert a.UserID
          { UserID := a.UserID, PlanningID := a.PlanningID, PlanningCreatedAt := c,
            Started := a.Time, Last := a.Time, SpentOnline := 0 },
        db3) := by
    simp [Service.SetActive, hflush, hstore, hpid, hla, hngt, hca,
      SpentTimeInMemory.NewSpentTime]
  rw [hres]
  exact ⟨rfl, Finmap.lookup_insert _⟩

/-- Witness of C20, after `TestSetActivePlanning`: user 7, holding a session,
activates planning 3 at time 40. -/
theorem SetActive_success_witness :
    (testService.SetActive { UserID := 7, PlanningID := 3, Time := 40 } testStore
        okStorage).1 = none ∧
      (testService.SetActive { UserID := 7, PlanningID := 3, Time := 40 } testStore
        okStorage).2.1.lookup 7 =
        some { UserID := 7, PlanningID := 3, PlanningCreatedAt := 0,
               Started := 40, Last := 40, SpentOnline := 0 } :=
  have h := SetActive_success testService { UserID := 7, PlanningID := 3, Time := 40 }
    testStore okStorage
    { okStorage with
      histories := [{ PlanningID := 3, Spent := 15, StartedAt := 0, EndedAt := 15,
                      Status := SpentTimeStatus.Online }] }
    { okStorage with
      histories := [{ PlanningID := 3, Spent := 15, StartedAt := 0, EndedAt := 15,
                      Status := SpentTimeStatus.Online }] }
    0 0 (by decide) (by decide) (by decide) (by decide) (by decide)
  ⟨by rw [h.1], h.2⟩


/-! ## Theorems about the store mutations of `Service.AddSpentTime` -/

/-- C13, as the code has it.  `AddSpentTime` reads the session in one call of
`SpentTimeStorage.Modify`, checks the report (and writes the Offline interval)
outside of any store mutation, and advances the session in a second call of
`Modify`: on a store that counts the calls, it calls `Modify` twice when it
returns `nil` and once when it returns an error, with the result it has on the
plain store; when it returns `nil`, with no other store operation between the
two calls, the session it stores is the session `st` it read and checked,
advanced. -/
theorem AddSpentTime_two_mutations {σ : Type} (s : Service σ) (now : Int)
    (r : SpentTimeReport) (m : Store) (n : Nat) (db : σ) :
    (s.AddSpentTimeOn (countModify inMemory) now r (m, n) db).2.1.2 =
        n + (if (s.AddSpentTime now r m db).1 = none then 2 else 1) ∧
      (s.AddSpentTimeOn (countModify inMemory) now r (m, n) db).1 =
        (s.AddSpentTime now r m db).1 ∧
      (s.AddSpentTimeOn (countModify inMemory) now r (m, n) db).2.1.1 =
        (s.AddSpentTime now r m db).2.1 ∧
      ((s.AddSpentTime now r m db).1 = none →
        ∃ st : SpentTime, m.lookup r.UserID = some st ∧
          ((st.Last ≤ now ∧ st.Started ≤ now) ∧ st.PlanningID = r.PlanningID ∧
            st.Last ≤ r.Time ∧ 0 ≤ r.Spent ∧
            s.isOutdated r.Time st.PlanningCreatedAt st.Last = false) ∧
          (s.AddSpentTime now r m db).2.1 = m.insert r.UserID
            { st with
              Last := r.Time,
              SpentOnline := add64 st.SpentOnline (min r.Spent (sub64 r.Time st.Last)) }) := by
  rw [AddSpentTimeOn_countModify]
  refine ⟨rfl, rfl, rfl, fun hacc => ?_⟩
  cases hst : m.lookup r.UserID with
  | none =>
    rw [AddSpentTime_no_session s now r m db hst] at hacc
    simp at hacc
  | some st =>
    rcases AddSpentTime_outcome s now r m db st hst with ⟨herr, _⟩ | ⟨_, hpass, hstore⟩
    · exact absurd hacc herr
    · exact ⟨st, rfl, hpass, hstore⟩

/-- Witness of C13 as amended: the accepted report of the Online scenario
costs two calls of `Modify`, a report before the checkpoint one. -/
theorem AddSpentTime_two_mutations_witness :
    (testService.AddSpentTimeOn (countModify inMemory) 25 testReport (testStore, 0)
        okStorage).2.1.2 = 2 ∧
      (testService.AddSpentTimeOn (countModify inMemory) 25 { testReport with Time := 10 }
        (testStore, 0) okStorage).2.1.2 = 1 :=
  ⟨(AddSpentTime_two_mutations testService 25 testReport testStore 0 okStorage).1.trans
      (by decide),
    (AddSpentTime_two_mutations testService 25 { testReport with Time := 10 } testStore 0
      okStorage).1.trans (by decide)⟩

/-- Counterexample to C13 as stated: on the report of
`TestAddSpentTimePlanningOnlineTooMuchTime`, which is accepted, `AddSpentTime`
calls `Modify` twice, not once. -/
theorem AddSpentTime_modify_called_twice :
    (testService.AddSpentTimeOn (countModify inMemory) 25 testReport (testStore, 0)
        okStorage).1 = none ∧
      (testService.AddSpentTimeOn (countModify inMemory) 25 testReport (testStore, 0)
        okStorage).2.1.2 = 2 ∧
      (testService.AddSpentTimeOn (countModify inMemory) 25 testReport (testStore, 0)
        okStorage).2.1.2 ≠ 1 := by
  decide


/-! ## Theorems about backup and restore -/

/-- C16 (snapshot round trip).  Let `m` be a map of sessions, empty or not, in
which every session is stored under its own `UserID`; every map that the
program builds is such a map (`Reachable_ownKeys`).  Let `entries` be the order
in which `m` is iterated.  When the encoding, the write of the temp file and
the rename succeed, and the backup file is then read and decoded to the slice
that was encoded, `backup` returns `nil`, and `restore` into an empty map
returns `nil` and yields the map `m` itself; so does `fromSlice` on the slice
of `toSlice`. -/
theorem backup_restore_roundtrip {φ β : Type} (fs : FileSystem φ β) (json : JSON β)
    (backupFolder : String) (m : Store)
    (entries : List (Sigma fun _ : UserID => SpentTime)) (b : β) (d d1 d2 d3 : φ)
    (hown : OwnKeys m)
    (hentries : (entries : Multiset (Sigma fun _ : UserID => SpentTime)) = m.entries)
    (hmarshal : json.Marshal (SpentTimeInMemory.toSlice entries) = Except.ok b)
    (hwrite : fs.WriteFile (SpentTimeInMemory.tempBackupFilePath backupFolder) b d = (none, d1))
    (hrename : fs.Rename (SpentTimeInMemory.tempBackupFilePath backupFolder)
      (SpentTimeInMemory.backupFilePath backupFolder) d1 = (none, d2))
    (hread : fs.ReadFile (SpentTimeInMemory.backupFilePath backupFolder) d2 = (Except.ok b, d3))
    (hunmarshal : json.Unmarshal b = Except.ok (SpentTimeInMemory.toSlice entries)) :
    SpentTimeInMemory.fromSlice ∅ (SpentTimeInMemory.toSlice entries) = m ∧
      SpentTimeInMemory.backup fs json backupFolder entries d = (none, d2) ∧
      SpentTimeInMemory.restore fs json backupFolder ∅ d2 = (none, m, d3) := by
  have hm : SpentTimeInMemory.fromSlice ∅ (SpentTimeInMemory.toSlice entries) = m :=
    Store.eq_of_lookup_normalised m _ hown (fun u => fromSlice_toSlice m entries hentries u)
  have hb : SpentTimeInMemory.backup fs json backupFolder entries d = (none, d2) := by
    simp [SpentTimeInMemory.backup, hmarshal, hwrite, hrename]
  have hr : SpentTimeInMemory.restore fs json backupFolder ∅ d2 =
      (none, SpentTimeInMemory.fromSlice ∅ (SpentTimeInMemory.toSlice entries), d3) := by
    simp [SpentTimeInMemory.restore, hread, hunmarshal]
  rw [hm] at hr
  exact ⟨hm, hb, hr⟩

/-- Witness of C16, after `TestLoadFromDump`: the map that two calls of
`NewSpentTime` build for the users 7 and 8 is written to an in-memory folder
and restored. -/
theorem backup_restore_roundtrip_witness :
    SpentTimeInMemory.fromSlice ∅ (SpentTimeInMemory.toSlice twoEntries) = twoStore ∧
      SpentTimeInMemory.backup (memFS (List SpentTime)) plainJSON "dir" twoEntries noFiles =
        (none, (SpentTimeInMemory.backup (memFS (List SpentTime)) plainJSON "dir" twoEntries
          noFiles).2) ∧
      (SpentTimeInMemory.restore (memFS (List SpentTime)) plainJSON "dir" ∅
        (SpentTimeInMemory.backup (memFS (List SpentTime)) plainJSON "dir" twoEntries
          noFiles).2).1 = none ∧
      (SpentTimeInMemory.restore (memFS (List SpentTime)) plainJSON "dir" ∅
        (SpentTimeInMemory.backup (memFS (List SpentTime)) plainJSON "dir" twoEntries
          noFiles).2).2.1 = twoStore :=
  have h := backup_restore_roundtrip (memFS (List SpentTime)) plainJSON "dir" twoStore
    twoEntries (SpentTimeInMemory.toSlice twoEntries) noFiles
    ((memFS (List SpentTime)).WriteFile (SpentTimeInMemory.tempBackupFilePath "dir")
      (SpentTimeInMemory.toSlice twoEntries) noFiles).2
    (SpentTimeInMemory.backup (memFS (List SpentTime)) plainJSON "dir" twoEntries noFiles).2
    ((memFS (List SpentTime)).ReadFile (SpentTimeInMemory.backupFilePath "dir")
      (SpentTimeInMemory.backup (memFS (List SpentTime)) plainJSON "dir" twoEntries noFiles).2).2
    (Reachable_ownKeys testService twoStore twoStore_reachable)
    (by decide) rfl rfl rfl rfl rfl
  ⟨h.1, h.2.1, by rw [h.2.2], by rw [h.2.2]⟩

/-- C17 (restore fallback).  Let `m` be a map of sessions in which every
session is stored under its own `UserID`, as in every map that the program
builds (`Reachable_ownKeys`), and `entries` the order in which it was iterated
for its last snapshot.  When reading the backup file fails and the temp file
is read and decoded to that snapshot, `restore` into an empty map returns
`nil` after these two reads and yields the map `m` itself.  When reading the
backup file succeeds, `restore` decodes and loads what that read returned and
makes no other call to the file system: the temp file is read only after a
failed read of the backup file. -/
theorem restore_fallback {φ β : Type} (fs : FileSystem φ β) (json : JSON β)
    (backupFolder : String) (m : Store)
    (entries : List (Sigma fun _ : UserID => SpentTime)) (b : β) (e : Err) (d d1 d2 : φ)
    (hown : OwnKeys m)
    (hentries : (entries : Multiset (Sigma fun _ : UserID => SpentTime)) = m.entries)
    (hmissing : fs.ReadFile (SpentTimeInMemory.backupFilePath backupFolder) d
      = (Except.error e, d1))
    (htemp : fs.ReadFile (SpentTimeInMemory.tempBackupFilePath backupFolder) d1
      = (Except.ok b, d2))
    (hunmarshal : json.Unmarshal b = Except.ok (SpentTimeInMemory.toSlice entries)) :
    SpentTimeInMemory.restore fs json backupFolder ∅ d = (none, m, d2) ∧
      (∀ (m0 : Store) (d0 d0' : φ) (b0 : β),
        fs.ReadFile (SpentTimeInMemory.backupFilePath backupFolder) d0 = (Except.ok b0, d0') →
        SpentTimeInMemory.restore fs json backupFolder m0 d0 =
          match json.Unmarshal b0 with
          | .error err => (some err, m0, d0')
          | .ok sts => (none, SpentTimeInMemory.fromSlice m0 sts, d0')) := by
  have hm : SpentTimeInMemory.fromSlice ∅ (SpentTimeInMemory.toSlice entries) = m :=
    Store.eq_of_lookup_normalised m _ hown (fun u => fromSlice_toSlice m entries hentries u)
  have hr : SpentTimeInMemory.restore fs json backupFolder ∅ d =
      (none, SpentTimeInMemory.fromSlice ∅ (SpentTimeInMemory.toSlice entries), d2) := by
    simp [SpentTimeInMemory.restore, hmissing, htemp, hunmarshal]
  rw [hm] at hr
  refine ⟨hr, ?_⟩
  intro m0 d0 d0' b0 h0
  unfold SpentTimeInMemory.restore
  simp only [h0]

/-- Witness of C17, after `TestLoadFromDumpLoadFromTmpIfNotExist`: only the
temp file exists and holds the snapshot of the two sessions; the restore reads
the backup path, then the temp path, and yields the map.  With a backup file
in the folder as well, the restore reads the backup path only. -/
theorem restore_fallback_witness :
    (SpentTimeInMemory.restore (memFS (List SpentTime)) plainJSON "dir" ∅
        { files := [("dir/backup.json.tmp", SpentTimeInMemory.toSlice twoEntries)],
          reads := [] }).1 = none ∧
      (SpentTimeInMemory.restore (memFS (List SpentTime)) plainJSON "dir" ∅
        { files := [("dir/backup.json.tmp", SpentTimeInMemory.toSlice twoEntries)],
          reads := [] }).2.1 = twoStore ∧
      (SpentTimeInMemory.restore (memFS (List SpentTime)) plainJSON "dir" ∅
        { files := [("dir/backup.json.tmp", SpentTimeInMemory.toSlice twoEntries)],
          reads := [] }).2.2.reads = ["dir/backup.json", "dir/backup.json.tmp"] ∧
      (SpentTimeInMemory.restore (memFS (List SpentTime)) plainJSON "dir" ∅
        { files := [("dir/backup.json", [testSession]),
                    ("dir/backup.json.tmp", SpentTimeInMemory.toSlice twoEntries)],
          reads := [] }).2.2.reads = ["dir/backup.json"] :=
  have h := restore_fallback (memFS (List SpentTime)) plainJSON "dir" twoStore twoEntries
    (SpentTimeInMemory.toSlice twoEntries) (Err.collaborator 2)
    { files := [("dir/backup.json.tmp", SpentTimeInMemory.toSlice twoEntries)], reads := [] }
    { files := [("dir/backup.json.tmp", SpentTimeInMemory.toSlice twoEntries)],
      reads := ["dir/backup.json"] }
    { files := [("dir/backup.json.tmp", SpentTimeInMemory.toSlice twoEntries)],
      reads := ["dir/backup.json", "dir/backup.json.tmp"] }
    twoStore_own_keys (by decide) rfl rfl rfl
  have h2 := h.2 ∅
    { files := [("dir/backup.json", [testSession]),
                ("dir/backup.json.tmp", SpentTimeInMemory.toSlice twoEntries)],
      reads := [] }
    { files := [("dir/backup.json", [testSession]),
                ("dir/backup.json.tmp", SpentTimeInMemory.toSlice twoEntries)],
      reads := ["dir/backup.json"] }
    [testSession] rfl
  ⟨by rw [h.1], by rw [h.1], by rw [h.1], by rw [h2]; rfl⟩


/-! ## Theorems about deactivation, closing, the range query and the opened plannings -/

/-- C21 (deactivation).  A `SetActive` request with `PlanningID = 0` whose flush
returns no error returns `nil` and leaves the user without a session; the
collaborator is left in the state after the flush (the write of the Online
interval of the old session, or nothing when there was none), so neither
`LastActivity` nor `PlanningCreatedAt` is called, whatever the request `Time`. -/
theorem SetActive_deactivate {σ : Type} (s : Service σ) (a : NewActivePlanning)
    (m : Store) (db : σ)
    (hpid : a.PlanningID = 0)
    (hflush : (SpentTimeInMemory.Modify m a.UserID (ifNotEmpty s.toHistory) db).1.1 = none) :
    s.SetActive a m db =
        (none, m.erase a.UserID,
          (SpentTimeInMemory.Modify m a.UserID (ifNotEmpty s.toHistory) db).2) ∧
      (s.SetActive a m db).2.1.lookup a.UserID = none ∧
      (m.lookup a.UserID = none → (s.SetActive a m db).2.2 = db) ∧
      (∀ st : SpentTime, m.lookup a.UserID = some st →
        (s.SetActive a m db).2.2 =
          (s.planningStorage.AddSpentTime
            { PlanningID := st.PlanningID
              Spent := st.SpentOnline
              StartedAt := st.Started
              EndedAt := st.Last
              Status := SpentTimeStatus.Online } db).2) := by
  have hstore := flush_ok_store s a.UserID m db hflush
  have hres : s.SetActive a m db =
      (none, m.erase a.UserID,
        (SpentTimeInMemory.Modify m a.UserID (ifNotEmpty s.toHistory) db).2) := by
    simp [Service.SetActive, hflush, hstore, hpid]
  rw [hres]
  refine ⟨rfl, Finmap.lookup_erase _ _, fun hnone => ?_, fun st hst => ?_⟩
  · rw [flush_no_session s a.UserID m db hnone]
  · cases hw : (s.planningStorage.AddSpentTime
        (spentTimeToHistory st SpentTimeStatus.Online) db).1 with
    | none =>
      rw [flush_session_ok s a.UserID m db st hst hw]
      rfl
    | some e =>
      rw [flush_session_fail s a.UserID m db st e hst hw] at hflush
      simp at hflush

/-- Witness of C21, after `TestSetActivePlanningZeroID`: user 7 deactivates;
the session is written to history and removed, and a last activity later than
the request time does not matter. -/
theorem SetActive_deactivate_witness :
    testService.SetActive { UserID := 7, PlanningID := 0, Time := 5 } testStore
        { okStorage with lastActivity := 10 } =
      (none, testStore.erase 7,
        { okStorage with
          lastActivity := 10,
          histories := [{ PlanningID := 3, Spent := 15, StartedAt := 0, EndedAt := 15,
                          Status := SpentTimeStatus.Online }] }) :=
  (SetActive_deactivate testService { UserID := 7, PlanningID := 0, Time := 5 } testStore
    { okStorage with lastActivity := 10 } rfl (by decide)).1

/-- C22 (conditional flush on close).  `ClosePlanning userID report` on a
session of the planning `report.PlanningID`, when the history write succeeds,
writes the Online interval of the session and deletes the session; on a
session of another planning, and on a user without a session, it leaves the
store as it is and writes nothing.  In the three cases it then calls
`ClosePlanning` of the collaborator with the same `userID` and `report` and
returns its error, wrapped. -/
theorem ClosePlanning_conditional_flush {σ : Type} (s : Service σ) (userID : UserID)
    (report : PlanningReport) (m : Store) (db : σ) :
    (∀ st : SpentTime, m.lookup userID = some st → st.PlanningID = report.PlanningID →
        (s.planningStorage.AddSpentTime
          { PlanningID := st.PlanningID
            Spent := st.SpentOnline
            StartedAt := st.Started
            EndedAt := st.Last
            Status := SpentTimeStatus.Online } db).1 = none →
        s.ClosePlanning userID report m db =
          (((s.planningStorage.ClosePlanning userID report
              (s.planningStorage.AddSpentTime
                { PlanningID := st.PlanningID
                  Spent := st.SpentOnline
                  StartedAt := st.Started
                  EndedAt := st.Last
                  Status := SpentTimeStatus.Online } db).2).1).map
              (fun err => Err.wrap err "failed ot close planning"),
            m.erase userID,
            (s.planningStorage.ClosePlanning userID report
              (s.planningStorage.AddSpentTime
                { PlanningID := st.PlanningID
                  Spent := st.SpentOnline
                  StartedAt := st.Started
                  EndedAt := st.Last
                  Status := SpentTimeStatus.Online } db).2).2)) ∧
      (∀ st : SpentTime, m.lookup userID = some st → st.PlanningID ≠ report.PlanningID →
        s.ClosePlanning userID report m db =
          (((s.planningStorage.ClosePlanning userID report db).1).map
              (fun err => Err.wrap err "failed ot close planning"),
            m, (s.planningStorage.ClosePlanning userID report db).2)) ∧
      (m.lookup userID = none →
        s.ClosePlanning userID report m db =
          (((s.planningStorage.ClosePlanning userID report db).1).map
              (fun err => Err.wrap err "failed ot close planning"),
            m, (s.planningStorage.ClosePlanning userID report db).2)) := by
  refine ⟨fun st hst heq hw => ?_, fun st hst hne => ?_, fun hnone => ?_⟩
  · have hf := closeFlush_match s userID report.PlanningID m db st hst heq
    have hw' : (s.planningStorage.AddSpentTime
        (spentTimeToHistory st SpentTimeStatus.Online) db).1 = none := hw
    have hf2 := flush_session_ok s userID m db st hst hw'
    unfold Service.ClosePlanning
    rw [hf, hf2]
    cases hc : (s.planningStorage.ClosePlanning userID report
        (s.planningStorage.AddSpentTime
          (spentTimeToHistory st SpentTimeStatus.Online) db).2).1 with
    | none =>
      have hc' := hc
      unfold spentTimeToHistory at hc'
      simp [hc, hc', spentTimeToHistory]
    | some e =>
      have hc' := hc
      unfold spentTimeToHistory at hc'
      simp [hc, hc', spentTimeToHistory]
  · have hf := closeFlush_other s userID report.PlanningID m db st hst hne
    unfold Service.ClosePlanning
    rw [hf]
    cases hc : (s.planningStorage.ClosePlanning userID report db).1 <;> simp [hc]
  · have hf := closeFlush_no_session s userID report.PlanningID m db hnone
    unfold Service.ClosePlanning
    rw [hf]
    cases hc : (s.planningStorage.ClosePlanning userID report db).1 <;> simp [hc]

/-- Witness of C22: user 7 closes planning 3, the planning of the stored
session, and then planning 4, which leaves the session where it is. -/
theorem ClosePlanning_conditional_flush_witness :
    testService.ClosePlanning 7 { PlanningID := 3, Progress := 50, Time := 30 } testStore
        okStorage =
        (none, testStore.erase 7,
          { okStorage with
            histories := [{ PlanningID := 3, Spent := 15, StartedAt := 0, EndedAt := 15,
                            Status := SpentTimeStatus.Online }] }) ∧
      testService.ClosePlanning 7 { PlanningID := 4, Progress := 50, Time := 30 } testStore
        okStorage = (none, testStore, okStorage) :=
  ⟨(ClosePlanning_conditional_flush testService 7
      { PlanningID := 3, Progress := 50, Time := 30 } testStore okStorage).1
      testSession (by decide) (by decide) (by decide),
    (ClosePlanning_conditional_flush testService 7
      { PlanningID := 4, Progress := 50, Time := 30 } testStore okStorage).2.1
      testSession (by decide) (by decide)⟩


/-- C23 (range query).  When the collaborator answers
`SpentTimeByUserIDTimeRange uid from to` with `p` and no error, `SpentTime`
returns `c + p` (the Go sum) and no error, where `c` is `SpentOnline` of the
session of `uid` if there is one with `from ≤ Started ≤ to`, both bounds
included and nothing but `Started` being looked at, and `0` otherwise; the
store is left as it is; the sum is the exact one when it fits in 64 bits. -/
theorem SpentTime_range_query {σ : Type} (s : Service σ) (uid : UserID) (from_ to_ : Int)
    (m : Store) (db db' : σ) (p : Int)
    (hq : s.planningStorage.SpentTimeByUserIDTimeRange uid from_ to_ db = ((p, none), db')) :
    s.SpentTime uid from_ to_ m db =
        ((add64
            (match m.lookup uid with
              | some st => if from_ ≤ st.Started ∧ st.Started ≤ to_ then st.SpentOnline else 0
              | none => 0) p, none), m, db') ∧
      (IsInt64 (p +
          (match m.lookup uid with
            | some st => if from_ ≤ st.Started ∧ st.Started ≤ to_ then st.SpentOnline else 0
            | none => 0)) →
        (s.SpentTime uid from_ to_ m db).1.1 =
          p + (match m.lookup uid with
            | some st => if from_ ≤ st.Started ∧ st.Started ≤ to_ then st.SpentOnline else 0
            | none => 0)) := by
  have hres : s.SpentTime uid from_ to_ m db =
      ((add64
          (match m.lookup uid with
            | some st => if from_ ≤ st.Started ∧ st.Started ≤ to_ then st.SpentOnline else 0
            | none => 0) p, none), m, db') := by
    unfold Service.SpentTime
    rw [spentTime_read uid from_ to_ m]
    simp [hq]
  rw [hres]
  refine ⟨rfl, fun hfit => ?_⟩
  show add64 _ p = _
  rw [add_comm] at hfit
  rw [add64_exact hfit, add_comm]

/-- Witness of C23, after `TestSpentTime`: the session of user 7 started at 0
with 15 seconds, the collaborator reports 20; the range `[0, 4]` gives 35,
the range `[1, 4]` gives 20. -/
theorem SpentTime_range_query_witness :
    (testService.SpentTime 7 0 4 testStore { okStorage with spent := 20 }).1 = (35, none) ∧
      (testService.SpentTime 7 1 4 testStore { okStorage with spent := 20 }).1 = (20, none) :=
  ⟨by
      rw [(SpentTime_range_query testService 7 0 4 testStore { okStorage with spent := 20 }
        { okStorage with spent := 20 } 20 rfl).1]
      decide,
    by
      rw [(SpentTime_range_query testService 7 1 4 testStore { okStorage with spent := 20 }
        { okStorage with spent := 20 } 20 rfl).1]
      decide⟩

/-- C24, as the code has it.  `errWithLog` returns `nil` for `nil`,
`ErrTimeout` for every error whose cause is `context.DeadlineExceeded`, and
the cause of the error for every other error, `context.Canceled` included. -/
theorem errWithLog_cases (e : Err) :
    errWithLog none = none ∧
      (e.Cause = Err.deadlineExceeded → errWithLog (some e) = some Err.ErrTimeout) ∧
      (e.Cause ≠ Err.deadlineExceeded → errWithLog (some e) = some e.Cause) ∧
      (e.Cause = Err.canceled → errWithLog (some e) = some Err.canceled) := by
  refine ⟨rfl, fun h => ?_, fun h => ?_, fun h => ?_⟩
  · simp [errWithLog, h]
  · simp [errWithLog, h]
  · simp [errWithLog, h]

/-- Witness of C24 as amended: a collaborator failure by deadline, wrapped by
the service, is reported as `ErrTimeout`; a typed error comes back as it is. -/
theorem errWithLog_cases_witness :
    errWithLog (some (Err.wrap Err.deadlineExceeded "planning storage error"))
        = some Err.ErrTimeout ∧
      errWithLog (some (Err.wrap Err.ErrOutdatedReport "invalid report"))
        = some Err.ErrOutdatedReport :=
  ⟨(errWithLog_cases (Err.wrap Err.deadlineExceeded "planning storage error")).2.1 rfl,
    (errWithLog_cases (Err.wrap Err.ErrOutdatedReport "invalid report")).2.2.1 (by decide)⟩

/-- Counterexample to C24 as stated: an error whose cause is
`context.Canceled` is returned as `context.Canceled`, not as `ErrTimeout`. -/
theorem errWithLog_canceled_not_timeout :
    (Err.wrap Err.canceled "planning storage error").Cause = Err.canceled ∧
      errWithLog (some (Err.wrap Err.canceled "planning storage error")) = some Err.canceled ∧
      errWithLog (some (Err.wrap Err.canceled "planning storage error"))
        ≠ some Err.ErrTimeout := by
  decide

/-- C25 (opened plannings).  When the collaborator answers `OpenedPlannings uid`
with the list `ps` and no error, `OpenedPlannings` returns no error and a list
of the same length whose element at every position is the element of `ps` at
that position with `Outdated` set to
`isOutdated now CreatedAt LastActivity` and the other fields as they were. -/
theorem OpenedPlannings_marks_outdated {σ : Type} (s : Service σ) (now : Int)
    (uid : UserID) (db db' : σ) (ps : List ExtendedPlanning)
    (hq : s.planningStorage.OpenedPlannings uid db = ((ps, none), db')) :
    (s.OpenedPlannings now uid db).1.2 = none ∧
      (s.OpenedPlannings now uid db).2 = db' ∧
      (s.OpenedPlannings now uid db).1.1.length = ps.length ∧
      (∀ i : Nat, (s.OpenedPlannings now uid db).1.1[i]? =
        (ps[i]?).map (fun p =>
          { toPlanning := p.toPlanning
            Estimation := p.Estimation
            LastActivity := p.LastActivity
            Outdated := s.isOutdated now p.toPlanning.CreatedAt p.LastActivity })) := by
  have hres : s.OpenedPlannings now uid db =
      ((ps.map (fun p =>
          { p with Outdated := s.isOutdated now p.toPlanning.CreatedAt p.LastActivity }),
        none), db') := by
    simp [Service.OpenedPlannings, hq]
  rw [hres]
  refine ⟨rfl, rfl, List.length_map _ _, fun i => ?_⟩
  exact List.getElem?_map _ _ _

/-- Witness of C25, after `TestOpenedPlannings`: at clock 40 with limits 35
and 10, the planning created at 0 is outdated and the planning created at 30
and last active at 38 is not. -/
theorem OpenedPlannings_marks_outdated_witness :
    (listingService.OpenedPlannings 40 7 twoPlannings).1.2 = none ∧
      (listingService.OpenedPlannings 40 7 twoPlannings).1.1.length = 2 ∧
      (listingService.OpenedPlannings 40 7 twoPlannings).1.1[0]? =
        some { toPlanning := planningOf 1 0, Estimation := 0, LastActivity := 0,
               Outdated := true } ∧
      (listingService.OpenedPlannings 40 7 twoPlannings).1.1[1]? =
        some { toPlanning := planningOf 2 30, Estimation := 0, LastActivity := 38,
               Outdated := false } :=
  have h := OpenedPlannings_marks_outdated listingService 40 7 twoPlannings twoPlannings
    twoPlannings rfl
  ⟨h.1, h.2.2.1, (h.2.2.2 0).trans (by decide), (h.2.2.2 1).trans (by decide)⟩


/-! ## Theorems about failures of the flush and of the close -/

/-- C29 (a failed flush keeps the session).  When the user `u` has the session
`st` and the collaborator fails to write its Online interval with the error
`e`: every `SetActive` request of `u` returns the error, wrapped twice, leaves
the store as it was, with `st` still the session of `u` and no new session,
and leaves the collaborator in the state after the failed write, so neither
`LastActivity` nor `PlanningCreatedAt` is called; and every `ClosePlanning` of
`u` for the planning of `st` does the same, so `ClosePlanning` of the
collaborator is not called. -/
theorem failed_flush_keeps_session {σ : Type} (s : Service σ) (u : UserID)
    (m : Store) (db : σ) (st : SpentTime) (e : Err)
    (hst : m.lookup u = some st)
    (hw : (s.planningStorage.AddSpentTime
        { PlanningID := st.PlanningID
          Spent := st.SpentOnline
          StartedAt := st.Started
          EndedAt := st.Last
          Status := SpentTimeStatus.Online } db).1 = some e) :
    (∀ (planningID : PlanningID) (time : Int),
        s.SetActive { UserID := u, PlanningID := planningID, Time := time } m db =
          (some (Err.wrap (Err.wrap e "failed to save spent time history to storage")
              "failed spentTime storage modification"),
            m,
            (s.planningStorage.AddSpentTime
              { PlanningID := st.PlanningID
                Spent := st.SpentOnline
                StartedAt := st.Started
                EndedAt := st.Last
                Status := SpentTimeStatus.Online } db).2)) ∧
      (∀ report : PlanningReport, report.PlanningID = st.PlanningID →
        s.ClosePlanning u report m db =
          (some (Err.wrap (Err.wrap e "failed to save spent time history to storage")
              "failed to modify spentTime storage"),
            m,
            (s.planningStorage.AddSpentTime
              { PlanningID := st.PlanningID
                Spent := st.SpentOnline
                StartedAt := st.Started
                EndedAt := st.Last
                Status := SpentTimeStatus.Online } db).2)) := by
  have hw' : (s.planningStorage.AddSpentTime
      (spentTimeToHistory st SpentTimeStatus.Online) db).1 = some e := hw
  have hf := flush_session_fail s u m db st e hst hw'
  refine ⟨fun planningID time => ?_, fun report heq => ?_⟩
  · unfold Service.SetActive
    simp only [hf]
    rfl
  · have hm := closeFlush_match s u report.PlanningID m db st hst heq.symm
    unfold Service.ClosePlanning
    simp only [hm, hf]
    rfl

/-- Witness of C29, after `TestSetActivePlanningStorageErr` and
`TestClosePlanningStorageErr`: the collaborator fails every call. -/
theorem failed_flush_keeps_session_witness :
    (testService.SetActive { UserID := 7, PlanningID := 3, Time := 40 } testStore
        failingStorage).2.1 = testStore ∧
      Cause (testService.SetActive { UserID := 7, PlanningID := 3, Time := 40 } testStore
        failingStorage).1 = some (Err.collaborator 1) ∧
      (testService.ClosePlanning 7 { PlanningID := 3, Progress := 0, Time := 40 } testStore
        failingStorage).2.1 = testStore :=
  have h := failed_flush_keeps_session testService 7 testStore failingStorage testSession
    (Err.collaborator 1) (by decide) (by decide)
  ⟨by rw [h.1 3 40], by rw [h.1 3 40]; rfl,
    by rw [h.2 { PlanningID := 3, Progress := 0, Time := 40 } rfl]⟩

/-- C30 (the close is not atomic).  When the session `st` of the user is for
the planning of the report, the history write succeeds and `ClosePlanning` of
the collaborator then fails with `e`, `ClosePlanning` returns `e` wrapped, so
the cause of the returned error is the cause of `e` (`e` itself for
`ErrInvalidUserID` and `ErrPlanningClosed`), while the session is already
deleted from the store and its Online interval already written. -/
theorem ClosePlanning_not_atomic {σ : Type} (s : Service σ) (userID : UserID)
    (report : PlanningReport) (m : Store) (db : σ) (st : SpentTime) (e : Err)
    (hst : m.lookup userID = some st)
    (heq : st.PlanningID = report.PlanningID)
    (hw : (s.planningStorage.AddSpentTime
        { PlanningID := st.PlanningID
          Spent := st.SpentOnline
          StartedAt := st.Started
          EndedAt := st.Last
          Status := SpentTimeStatus.Online } db).1 = none)
    (hc : (s.planningStorage.ClosePlanning userID report
        (s.planningStorage.AddSpentTime
          { PlanningID := st.PlanningID
            Spent := st.SpentOnline
            StartedAt := st.Started
            EndedAt := st.Last
            Status := SpentTimeStatus.Online } db).2).1 = some e) :
    s.ClosePlanning userID report m db =
        (some (Err.wrap e "failed ot close planning"), m.erase userID,
          (s.planningStorage.ClosePlanning userID report
            (s.planningStorage.AddSpentTime
              { PlanningID := st.PlanningID
                Spent := st.SpentOnline
                StartedAt := st.Started
                EndedAt := st.Last
                Status := SpentTimeStatus.Online } db).2).2) ∧
      Cause (s.ClosePlanning userID report m db).1 = some e.Cause ∧
      (e = Err.ErrInvalidUserID ∨ e = Err.ErrPlanningClosed →
        Cause (s.ClosePlanning userID report m db).1 = some e) ∧
      (s.ClosePlanning userID report m db).2.1.lookup userID = none := by
  have hm := closeFlush_match s userID report.PlanningID m db st hst heq
  have hw' : (s.planningStorage.AddSpentTime
      (spentTimeToHistory st SpentTimeStatus.Online) db).1 = none := hw
  have hf := flush_session_ok s userID m db st hst hw'
  have hc' : (s.planningStorage.ClosePlanning userID report
      (s.planningStorage.AddSpentTime
        (spentTimeToHistory st SpentTimeStatus.Online) db).2).1 = some e := hc
  have hres : s.ClosePlanning userID report m db =
      (some (Err.wrap e "failed ot close planning"), m.erase userID,
        (s.planningStorage.ClosePlanning userID report
          (s.planningStorage.AddSpentTime
            (spentTimeToHistory st SpentTimeStatus.Online) db).2).2) := by
    unfold Service.ClosePlanning
    simp only [hm, hf, hc']
  rw [hres]
  refine ⟨rfl, rfl, fun h => ?_, Finmap.lookup_erase _ _⟩
  rcases h with h | h <;> subst h <;> rfl

/-- Witness of C30: user 7 closes planning 3 against a collaborator that takes
the history interval and refuses the close with `ErrPlanningClosed`. -/
theorem ClosePlanning_not_atomic_witness :
    closedService.ClosePlanning 7 { PlanningID := 3, Progress := 0, Time := 40 } testStore
        okStorage =
      (some (Err.wrap Err.ErrPlanningClosed "failed ot close planning"), testStore.erase 7,
        { okStorage with
          histories := [{ PlanningID := 3, Spent := 15, StartedAt := 0, EndedAt := 15,
                          Status := SpentTimeStatus.Online }] }) :=
  (ClosePlanning_not_atomic closedService 7 { PlanningID := 3, Progress := 0, Time := 40 }
    testStore okStorage testSession Err.ErrPlanningClosed
    (by decide) (by decide) (by decide) (by decide)).1

/-- C28 (a report from the future).  `report.Time` is not compared with the
clock: with the limits 35 and 10, the session of user 7 with checkpoint 15 and
the clock at 16, the report of 5 seconds at time 20 is accepted and leaves
`Last = 20`, after the clock; from then on every `AddSpentTime` call for user
7 at the clock 16, whatever the report and the collaborator state, fails with
the internal error of the clock check and leaves the store as it is. -/
theorem AddSpentTime_accepts_future_report :
    ∃ (s : Service testPlanningStorage) (m : Store) (db : testPlanningStorage)
      (st st' : SpentTime) (now : Int) (r : SpentTimeReport),
      m.lookup r.UserID = some st ∧ now < r.Time ∧
        (s.AddSpentTime now r m db).1 = none ∧
        (s.AddSpentTime now r m db).2.1.lookup r.UserID = some st' ∧ now < st'.Last ∧
        ∀ (planningID : PlanningID) (spent time : Int) (db' : testPlanningStorage),
          s.AddSpentTime now
              { UserID := r.UserID, PlanningID := planningID, Spent := spent, Time := time }
              (s.AddSpentTime now r m db).2.1 db' =
            (some (Err.wrap (Err.invalidSpentTime now st') "invalid report"),
              (s.AddSpentTime now r m db).2.1, db') := by
  refine ⟨testService, testStore, okStorage, testSession,
    { testSession with Last := 20, SpentOnline := 20 }, 16,
    { testReport with Spent := 5 }, by decide, by decide, by decide, by decide, by decide, ?_⟩
  intro planningID spent time db'
  have hst' : (testService.AddSpentTime 16 { testReport with Spent := 5 } testStore
      okStorage).2.1.lookup 7
      = some { testSession with Last := 20, SpentOnline := 20 } := by decide
  have hc := checkReport_clock testService 16
    { testSession with Last := 20, SpentOnline := 20 }
    { UserID := 7, PlanningID := planningID, Spent := spent, Time := time }
    (Or.inl (by decide))
  exact AddSpentTime_invalid testService 16
    { UserID := 7, PlanningID := planningID, Spent := spent, Time := time }
    _ db' _ _ hst' (by rw [hc]) (by simp)


/-! ## Theorems about the invariants of sessions and intervals -/

/-- C26, as the code has it.  A session that `SetActive` created at a request
time `a.Time ≥ 0` and that a run of `AddSpentTime` calls (any users, any
reports with `int64` times, accepted or not) has changed since satisfies
`Started ≤ Last` and `0 ≤ SpentOnline ≤ Last - Started` in exact arithmetic;
hence the Online interval that a flush makes of it has
`0 ≤ Spent ≤ EndedAt - StartedAt`. -/
theorem session_invariant {σ : Type} (s : Service σ) (a : NewActivePlanning)
    (m : Store) (db : σ) (calls : List (Int × SpentTimeReport)) (st : SpentTime)
    (hstart : 0 ≤ a.Time)
    (hT : IsInt64 a.Time)
    (hcalls : ∀ c ∈ calls, IsInt64 c.2.Time)
    (hok : (s.SetActive a m db).1 = none)
    (hst : (s.runReports calls (s.SetActive a m db).2.1 (s.SetActive a m db).2.2).1.lookup
      a.UserID = some st) :
    st.Started = a.Time ∧ st.Started ≤ st.Last ∧
      0 ≤ st.SpentOnline ∧ st.SpentOnline ≤ st.Last - st.Started ∧
      0 ≤ (spentTimeToHistory st SpentTimeStatus.Online).Spent ∧
      (spentTimeToHistory st SpentTimeStatus.Online).Spent ≤
        (spentTimeToHistory st SpentTimeStatus.Online).EndedAt -
          (spentTimeToHistory st SpentTimeStatus.Online).StartedAt := by
  have hinit : ∀ st0 : SpentTime, (s.SetActive a m db).2.1.lookup a.UserID = some st0 →
      SessionInvariant st0 ∧ st0.Started = a.Time := by
    intro st0 h0
    obtain ⟨h1, h2, h3⟩ := SetActive_created s a m db st0 hok h0
    unfold IsInt64 at hT
    refine ⟨⟨?_, ?_, ?_, ?_, ?_⟩, h1⟩ <;> omega
  have hrun := runReports_keeps_invariant s a.UserID calls (s.SetActive a m db).2.1
    (s.SetActive a m db).2.2 hcalls (fun st0 h0 => (hinit st0 h0).1) st hst
  have hstarted : ∀ (calls : List (Int × SpentTimeReport)) (m' : Store) (db' : σ),
      (∀ st0 : SpentTime, m'.lookup a.UserID = some st0 → st0.Started = a.Time) →
      ∀ st1 : SpentTime, (s.runReports calls m' db').1.lookup a.UserID = some st1 →
        st1.Started = a.Time := by
    intro cs
    induction cs with
    | nil =>
      intro m' db' hm' st1 h1
      exact hm' st1 h1
    | cons c cs ih =>
      intro m' db' hm' st1 h1
      refine ih _ _ ?_ st1 h1
      intro st2 h2
      cases hl : m'.lookup c.2.UserID with
      | none =>
        rw [AddSpentTime_no_session s c.1 c.2 m' db' hl] at h2
        exact hm' st2 h2
      | some st3 =>
        rcases AddSpentTime_outcome s c.1 c.2 m' db' st3 hl with ⟨_, hsame⟩ | ⟨_, _, hstore⟩
        · rw [hsame] at h2
          exact hm' st2 h2
        · rw [hstore] at h2
          by_cases hu : a.UserID = c.2.UserID
          · rw [hu, Finmap.lookup_insert] at h2
            have := Option.some.inj h2
            subst this
            rw [← hu] at hl
            exact hm' st3 hl
          · rw [Finmap.lookup_insert_of_ne _ hu] at h2
            exact hm' st2 h2
  have hs := hstarted calls (s.SetActive a m db).2.1 (s.SetActive a m db).2.2
    (fun st0 h0 => (hinit st0 h0).2) st hst
  obtain ⟨_, h1, _, h3, h4⟩ := hrun
  exact ⟨hs, h1, h3, h4, h3, h4⟩

/-- Witness of C26 as amended: user 7 activates planning 3 at time 15, then
reports 10 seconds at 20 (5 are credited) and 2 seconds at 24; the session
has 7 seconds over the 9 elapsed. -/
theorem session_invariant_witness :
    (testService.runReports
        [(25, { UserID := 7, PlanningID := 3, Spent := 10, Time := 20 }),
         (25, { UserID := 7, PlanningID := 3, Spent := 2, Time := 24 })]
        (testService.SetActive { UserID := 7, PlanningID := 3, Time := 15 } ∅ okStorage).2.1
        (testService.SetActive { UserID := 7, PlanningID := 3, Time := 15 } ∅
          okStorage).2.2).1.lookup 7 =
        some { UserID := 7, PlanningID := 3, PlanningCreatedAt := 0, Started := 15,
               Last := 24, SpentOnline := 7 } ∧
      (7 : Int) ≤ 24 - 15 :=
  have h := session_invariant testService { UserID := 7, PlanningID := 3, Time := 15 } ∅
    okStorage
    [(25, { UserID := 7, PlanningID := 3, Spent := 10, Time := 20 }),
     (25, { UserID := 7, PlanningID := 3, Spent := 2, Time := 24 })]
    { UserID := 7, PlanningID := 3, PlanningCreatedAt := 0, Started := 15,
      Last := 24, SpentOnline := 7 }
    (by decide) (by decide) (by decide) (by decide) (by decide)
  ⟨by decide, h.2.2.2.1⟩

/-- Counterexample to C26 as stated: against a collaborator whose last
activity is the least `int64`, `SetActive` creates a session at that time;
the report of 5 seconds at time 0 is then accepted, the Go difference
`0 - Last` wraps to the least `int64`, and the session is left with a negative
`SpentOnline`. -/
theorem session_invariant_fails_on_overflow :
    (testService.SetActive { UserID := 7, PlanningID := 3, Time := -9223372036854775808 } ∅
        { okStorage with lastActivity := -9223372036854775808 }).1 = none ∧
      (testService.SetActive { UserID := 7, PlanningID := 3, Time := -9223372036854775808 } ∅
        { okStorage with lastActivity := -9223372036854775808 }).2.1.lookup 7
        = some earliestSession ∧
      (testService.AddSpentTime 0 { UserID := 7, PlanningID := 3, Spent := 5, Time := 0 }
        ((∅ : Store).insert 7 earliestSession)
        { okStorage with lastActivity := -9223372036854775808 }).1 = none ∧
      (testService.runReports [(0, { UserID := 7, PlanningID := 3, Spent := 5, Time := 0 })]
        (testService.SetActive { UserID := 7, PlanningID := 3, Time := -9223372036854775808 } ∅
          { okStorage with lastActivity := -9223372036854775808 }).2.1
        (testService.SetActive { UserID := 7, PlanningID := 3, Time := -9223372036854775808 } ∅
          { okStorage with lastActivity := -9223372036854775808 }).2.2).1.lookup 7
        = some { earliestSession with Last := 0, SpentOnline := -9223372036854775808 } ∧
      ¬ (0 : Int) ≤ ({ earliestSession with
          Last := 0, SpentOnline := -9223372036854775808 } : SpentTime).SpentOnline := by
  decide

/-- C27, as the code has it.  When a report `r` against the stored session `st`
is classified Offline, the interval that `AddSpentTime` hands to the
collaborator, the only one, is `reportToHistory` of the clamped report with
status Offline; when `r.Time - st.Last` fits in an `int64` (as it does for
every `st.Last ≥ 0`), the interval lies inside the gap:
`st.Last ≤ StartedAt ≤ EndedAt = r.Time` and
`Spent = EndedAt - StartedAt ≥ 0`. -/
theorem Offline_interval_inside_gap {σ : Type} (s : Service σ) (now : Int)
    (r : SpentTimeReport) (m : Store) (db : σ) (st : SpentTime)
    (hst : m.lookup r.UserID = some st)
    (hoff : (s.checkReport now st r).2 = some Err.errOfflineSpentTime)
    (hLast : IsInt64 st.Last) (hTime : IsInt64 r.Time)
    (hfit : IsInt64 (r.Time - st.Last)) :
    (s.AddSpentTime now r m db).2.2 =
        (s.planningStorage.AddSpentTime
          (reportToHistory (s.checkReport now st r).1 SpentTimeStatus.Offline) db).2 ∧
      (reportToHistory (s.checkReport now st r).1 SpentTimeStatus.Offline).Status
        = SpentTimeStatus.Offline ∧
      (reportToHistory (s.checkReport now st r).1 SpentTimeStatus.Offline).EndedAt = r.Time ∧
      st.Last ≤ (reportToHistory (s.checkReport now st r).1 SpentTimeStatus.Offline).StartedAt ∧
      (reportToHistory (s.checkReport now st r).1 SpentTimeStatus.Offline).StartedAt ≤
        (reportToHistory (s.checkReport now st r).1 SpentTimeStatus.Offline).EndedAt ∧
      (reportToHistory (s.checkReport now st r).1 SpentTimeStatus.Offline).Spent =
        (reportToHistory (s.checkReport now st r).1 SpentTimeStatus.Offline).EndedAt -
          (reportToHistory (s.checkReport now st r).1 SpentTimeStatus.Offline).StartedAt ∧
      0 ≤ (reportToHistory (s.checkReport now st r).1 SpentTimeStatus.Offline).Spent := by
  have hdb : (s.AddSpentTime now r m db).2.2 =
      (s.planningStorage.AddSpentTime
        (reportToHistory (s.checkReport now st r).1 SpentTimeStatus.Offline) db).2 := by
    rw [AddSpentTime_session s now r m db st hst, if_pos hoff]
    cases (s.planningStorage.AddSpentTime
      (reportToHistory (s.checkReport now st r).1 SpentTimeStatus.Offline) db).1 <;> rfl
  obtain ⟨hclock, hid, hord, hsign, hstale⟩ := checkReport_accepts s now st r (Or.inr hoff)
  have hc := checkReport_pass s now st r hclock hid hord hsign hstale
  rw [hc] at hdb ⊢
  refine ⟨hdb, rfl, rfl, ?_⟩
  have hd : sub64 r.Time st.Last = r.Time - st.Last := sub64_exact hfit
  unfold IsInt64 at hLast hTime hfit
  have hc0 : 0 ≤ min r.Spent (r.Time - st.Last) := le_min hsign (by omega)
  have hc1 : min r.Spent (r.Time - st.Last) ≤ r.Time - st.Last := min_le_right _ _
  simp only [reportToHistory, hd]
  generalize min r.Spent (r.Time - st.Last) = c at hc0 hc1
  have hs : sub64 r.Time c = r.Time - c := sub64_exact ⟨by omega, by omega⟩
  rw [hs]
  refine ⟨?_, ?_, ?_, ?_⟩ <;> omega

/-- Witness of C27 as amended, after
`TestAddSpentTimePlanningOfflineTooMuchTime`: the interval `{5, 15, 20}` for
the session with checkpoint 15 and the report at time 20. -/
theorem Offline_interval_inside_gap_witness :
    (testService.AddSpentTime 325 testReport testStore okStorage).2.2.histories =
        [{ PlanningID := 3, Spent := 5, StartedAt := 15, EndedAt := 20,
           Status := SpentTimeStatus.Offline }] ∧
      testSession.Last ≤
        (reportToHistory (testService.checkReport 325 testSession testReport).1
          SpentTimeStatus.Offline).StartedAt :=
  have h := Offline_interval_inside_gap testService 325 testReport testStore okStorage
    testSession (by decide) (by decide) (by decide) (by decide) (by decide)
  ⟨by rw [h.1]; decide, h.2.2.2.1⟩

/-- Counterexample to C27 as stated: for the session whose checkpoint is the
least `int64`, at the clock -1, the report of 5 seconds at time 0 is
classified Offline and the interval handed to the collaborator has a negative
`Spent`. -/
theorem Offline_interval_negative_on_overflow :
    (testService.AddSpentTime (-1) { UserID := 7, PlanningID := 3, Spent := 5, Time := 0 }
        ((∅ : Store).insert 7 earliestSession) okStorage).1 = none ∧
      (testService.AddSpentTime (-1) { UserID := 7, PlanningID := 3, Spent := 5, Time := 0 }
        ((∅ : Store).insert 7 earliestSession) okStorage).2.2.histories =
        [{ PlanningID := 3, Spent := -9223372036854775808,
           StartedAt := -9223372036854775808, EndedAt := 0,
           Status := SpentTimeStatus.Offline }] ∧
      ¬ (0 : Int) ≤ -9223372036854775808 := by
  decide

end Planningms
